import Mathlib

/-!
Verification development for `includes/vmmdll.h` (MemProcFS / pcileech API header).

The header fixes the numeric contract of the VMM API: option keys, flag bits,
result codes, enumerations, lookup tables and packed record layouts.  The
definitions below embed those constants and tables as they are written in the
header; machine words are natural numbers, 32-bit words being the numbers
below `2 ^ 32`, and the C operators `|`, `&`, `~` are the bitwise operations
on them.
-/

namespace Vmmdll

/-! ## Machine words -/

/-- The C value `(DWORD)-1`: the number `-1` reduced modulo `2 ^ 32`. -/
def DWORD_MINUS_ONE : Nat := ((-1 : Int) % (2 ^ 32 : Int)).toNat

/-- The C operator `~` on a 32-bit word. -/
def DWORD_not (x : Nat) : Nat := 0xFFFFFFFF ^^^ (x % 2 ^ 32)

/-- Whether a word consists of exactly one of the bits `0 .. width - 1`. -/
def IsSingleBit (width x : Nat) : Prop := ∃ k, k < width ∧ x = 2 ^ k

instance (width x : Nat) : Decidable (IsSingleBit width x) := by
  unfold IsSingleBit; infer_instance

/-! ## Address-space identifiers and read flags (header lines 576-595) -/

/-- The `dwPID` value that selects physical memory ("To read physical memory
specify dwPID as (DWORD)-1"). -/
def VMMDLL_PID_PHYSICAL : Nat := DWORD_MINUS_ONE

def VMMDLL_PID_PROCESS_WITH_KERNELMEMORY : Nat := 0x80000000

def VMMDLL_FLAG_NOCACHE : Nat := 0x0001
def VMMDLL_FLAG_ZEROPAD_ON_FAIL : Nat := 0x0002
def VMMDLL_FLAG_FORCECACHE_READ : Nat := 0x0008
def VMMDLL_FLAG_NOPAGING : Nat := 0x0010
def VMMDLL_FLAG_NOPAGING_IO : Nat := 0x0020
def VMMDLL_FLAG_NOCACHEPUT : Nat := 0x0100
def VMMDLL_FLAG_CACHE_RECENT_ONLY : Nat := 0x0200
def VMMDLL_FLAG_NO_PREDICTIVE_READ : Nat := 0x0400

/-- The read flags `VMMDLL_FLAG_*`, in the order of the header. -/
def VMMDLL_FLAGS : List Nat :=
  [ VMMDLL_FLAG_NOCACHE, VMMDLL_FLAG_ZEROPAD_ON_FAIL, VMMDLL_FLAG_FORCECACHE_READ,
    VMMDLL_FLAG_NOPAGING, VMMDLL_FLAG_NOPAGING_IO, VMMDLL_FLAG_NOCACHEPUT,
    VMMDLL_FLAG_CACHE_RECENT_ONLY, VMMDLL_FLAG_NO_PREDICTIVE_READ ]

/-! ## Virtual file system result codes (header lines 302-306) -/

/-- The cast `(NTSTATUS)x` of a literal, kept as the 32-bit pattern of the result. -/
def NTSTATUS (x : Nat) : Nat := x % 2 ^ 32

def VMMDLL_STATUS_SUCCESS : Nat := NTSTATUS 0x00000000
def VMMDLL_STATUS_UNSUCCESSFUL : Nat := NTSTATUS 0xC0000001
def VMMDLL_STATUS_END_OF_FILE : Nat := NTSTATUS 0xC0000011
def VMMDLL_STATUS_FILE_INVALID : Nat := NTSTATUS 0xC0000098
def VMMDLL_STATUS_FILE_SYSTEM_LIMITATION : Nat := NTSTATUS 0xC0000427

/-- The result codes `VMMDLL_STATUS_*` defined by the header. -/
def VMMDLL_STATUS_CODES : List Nat :=
  [ VMMDLL_STATUS_SUCCESS, VMMDLL_STATUS_UNSUCCESSFUL, VMMDLL_STATUS_END_OF_FILE,
    VMMDLL_STATUS_FILE_INVALID, VMMDLL_STATUS_FILE_SYSTEM_LIMITATION ]

/-- The failure codes among `VMMDLL_STATUS_*`. -/
def VMMDLL_STATUS_FAILURES : List Nat :=
  [ VMMDLL_STATUS_UNSUCCESSFUL, VMMDLL_STATUS_END_OF_FILE,
    VMMDLL_STATUS_FILE_INVALID, VMMDLL_STATUS_FILE_SYSTEM_LIMITATION ]

/-! ## Configuration option keys (header lines 160-203) -/

def VMMDLL_OPT_CORE_PRINTF_ENABLE : Nat := 0x4000000100000000
def VMMDLL_OPT_CORE_VERBOSE : Nat := 0x4000000200000000
def VMMDLL_OPT_CORE_VERBOSE_EXTRA : Nat := 0x4000000300000000
def VMMDLL_OPT_CORE_VERBOSE_EXTRA_TLP : Nat := 0x4000000400000000
def VMMDLL_OPT_CORE_MAX_NATIVE_ADDRESS : Nat := 0x4000000800000000

def VMMDLL_OPT_CORE_SYSTEM : Nat := 0x2000000100000000
def VMMDLL_OPT_CORE_MEMORYMODEL : Nat := 0x2000000200000000

def VMMDLL_OPT_CONFIG_IS_REFRESH_ENABLED : Nat := 0x2000000300000000
def VMMDLL_OPT_CONFIG_TICK_PERIOD : Nat := 0x2000000400000000
def VMMDLL_OPT_CONFIG_READCACHE_TICKS : Nat := 0x2000000500000000
def VMMDLL_OPT_CONFIG_TLBCACHE_TICKS : Nat := 0x2000000600000000
def VMMDLL_OPT_CONFIG_PROCCACHE_TICKS_PARTIAL : Nat := 0x2000000700000000
def VMMDLL_OPT_CONFIG_PROCCACHE_TICKS_TOTAL : Nat := 0x2000000800000000
def VMMDLL_OPT_CONFIG_VMM_VERSION_MAJOR : Nat := 0x2000000900000000
def VMMDLL_OPT_CONFIG_VMM_VERSION_MINOR : Nat := 0x2000000A00000000
def VMMDLL_OPT_CONFIG_VMM_VERSION_REVISION : Nat := 0x2000000B00000000
def VMMDLL_OPT_CONFIG_STATISTICS_FUNCTIONCALL : Nat := 0x2000000C00000000
def VMMDLL_OPT_CONFIG_IS_PAGING_ENABLED : Nat := 0x2000000D00000000

def VMMDLL_OPT_WIN_VERSION_MAJOR : Nat := 0x2000010100000000
def VMMDLL_OPT_WIN_VERSION_MINOR : Nat := 0x2000010200000000
def VMMDLL_OPT_WIN_VERSION_BUILD : Nat := 0x2000010300000000
def VMMDLL_OPT_WIN_SYSTEM_UNIQUE_ID : Nat := 0x2000010400000000

def VMMDLL_OPT_FORENSIC_MODE : Nat := 0x2000020100000000

def VMMDLL_OPT_REFRESH_ALL : Nat := 0x2001ffff00000000
def VMMDLL_OPT_REFRESH_FREQ_MEM : Nat := 0x2001000200000000
def VMMDLL_OPT_REFRESH_FREQ_TLB : Nat := 0x2001000400000000
def VMMDLL_OPT_REFRESH_FREQ_FAST : Nat := 0x2001040000000000
def VMMDLL_OPT_REFRESH_FREQ_MEDIUM : Nat := 0x2001000100000000
def VMMDLL_OPT_REFRESH_FREQ_SLOW : Nat := 0x2001001000000000
def VMMDLL_OPT_REFRESH_PROCESS : Nat := 0x2001000100000000
def VMMDLL_OPT_REFRESH_READ : Nat := 0x2001000200000000
def VMMDLL_OPT_REFRESH_TLB : Nat := 0x2001000400000000
def VMMDLL_OPT_REFRESH_PAGING : Nat := 0x2001000800000000
def VMMDLL_OPT_REFRESH_REGISTRY : Nat := 0x2001001000000000
def VMMDLL_OPT_REFRESH_USER : Nat := 0x2001002000000000
def VMMDLL_OPT_REFRESH_PHYSMEMMAP : Nat := 0x2001004000000000
def VMMDLL_OPT_REFRESH_PFN : Nat := 0x2001008000000000
def VMMDLL_OPT_REFRESH_OBJ : Nat := 0x2001010000000000
def VMMDLL_OPT_REFRESH_NET : Nat := 0x2001020000000000

/-- The access class written in the comment of each `VMMDLL_OPT_*` line. -/
inductive OptAccess where
  | R
  | RW
  | W
  deriving DecidableEq, Repr

/-- The `VMMDLL_OPT_*` lines of the header in order: the key and the access
class of its comment. -/
def VMMDLL_OPT_TABLE : List (Nat × OptAccess) :=
  [ (VMMDLL_OPT_CORE_PRINTF_ENABLE, .RW),
    (VMMDLL_OPT_CORE_VERBOSE, .RW),
    (VMMDLL_OPT_CORE_VERBOSE_EXTRA, .RW),
    (VMMDLL_OPT_CORE_VERBOSE_EXTRA_TLP, .RW),
    (VMMDLL_OPT_CORE_MAX_NATIVE_ADDRESS, .R),
    (VMMDLL_OPT_CORE_SYSTEM, .R),
    (VMMDLL_OPT_CORE_MEMORYMODEL, .R),
    (VMMDLL_OPT_CONFIG_IS_REFRESH_ENABLED, .R),
    (VMMDLL_OPT_CONFIG_TICK_PERIOD, .RW),
    (VMMDLL_OPT_CONFIG_READCACHE_TICKS, .RW),
    (VMMDLL_OPT_CONFIG_TLBCACHE_TICKS, .RW),
    (VMMDLL_OPT_CONFIG_PROCCACHE_TICKS_PARTIAL, .RW),
    (VMMDLL_OPT_CONFIG_PROCCACHE_TICKS_TOTAL, .RW),
    (VMMDLL_OPT_CONFIG_VMM_VERSION_MAJOR, .R),
    (VMMDLL_OPT_CONFIG_VMM_VERSION_MINOR, .R),
    (VMMDLL_OPT_CONFIG_VMM_VERSION_REVISION, .R),
    (VMMDLL_OPT_CONFIG_STATISTICS_FUNCTIONCALL, .RW),
    (VMMDLL_OPT_CONFIG_IS_PAGING_ENABLED, .RW),
    (VMMDLL_OPT_WIN_VERSION_MAJOR, .R),
    (VMMDLL_OPT_WIN_VERSION_MINOR, .R),
    (VMMDLL_OPT_WIN_VERSION_BUILD, .R),
    (VMMDLL_OPT_WIN_SYSTEM_UNIQUE_ID, .R),
    (VMMDLL_OPT_FORENSIC_MODE, .RW),
    (VMMDLL_OPT_REFRESH_ALL, .W),
    (VMMDLL_OPT_REFRESH_FREQ_MEM, .W),
    (VMMDLL_OPT_REFRESH_FREQ_TLB, .W),
    (VMMDLL_OPT_REFRESH_FREQ_FAST, .W),
    (VMMDLL_OPT_REFRESH_FREQ_MEDIUM, .W),
    (VMMDLL_OPT_REFRESH_FREQ_SLOW, .W),
    (VMMDLL_OPT_REFRESH_PROCESS, .W),
    (VMMDLL_OPT_REFRESH_READ, .W),
    (VMMDLL_OPT_REFRESH_TLB, .W),
    (VMMDLL_OPT_REFRESH_PAGING, .W),
    (VMMDLL_OPT_REFRESH_REGISTRY, .W),
    (VMMDLL_OPT_REFRESH_USER, .W),
    (VMMDLL_OPT_REFRESH_PHYSMEMMAP, .W),
    (VMMDLL_OPT_REFRESH_PFN, .W),
    (VMMDLL_OPT_REFRESH_OBJ, .W),
    (VMMDLL_OPT_REFRESH_NET, .W) ]

/-- The keys documented with access class `a`, in header order. -/
def optKeys (a : OptAccess) : List Nat :=
  (VMMDLL_OPT_TABLE.filter (fun e => decide (e.2 = a))).map (fun e => e.1)

/-- The keys that can be read: those documented R or RW, in header order. -/
def optKeysReadable : List Nat :=
  (VMMDLL_OPT_TABLE.filter (fun e => decide (e.2 ≠ OptAccess.W))).map (fun e => e.1)

/-- The access classes under which a key value is documented. -/
def optAccessOf (k : Nat) : List OptAccess :=
  ((VMMDLL_OPT_TABLE.filter (fun e => decide (e.1 = k))).map (fun e => e.2)).dedup

/-- The five frequency-based refresh triggers `VMMDLL_OPT_REFRESH_FREQ_*`. -/
def VMMDLL_OPT_REFRESH_FREQ_KEYS : List Nat :=
  [ VMMDLL_OPT_REFRESH_FREQ_MEM, VMMDLL_OPT_REFRESH_FREQ_TLB, VMMDLL_OPT_REFRESH_FREQ_FAST,
    VMMDLL_OPT_REFRESH_FREQ_MEDIUM, VMMDLL_OPT_REFRESH_FREQ_SLOW ]

/-- The ten refresh triggers marked DEPRECATED. -/
def VMMDLL_OPT_REFRESH_DEPRECATED_KEYS : List Nat :=
  [ VMMDLL_OPT_REFRESH_PROCESS, VMMDLL_OPT_REFRESH_READ, VMMDLL_OPT_REFRESH_TLB,
    VMMDLL_OPT_REFRESH_PAGING, VMMDLL_OPT_REFRESH_REGISTRY, VMMDLL_OPT_REFRESH_USER,
    VMMDLL_OPT_REFRESH_PHYSMEMMAP, VMMDLL_OPT_REFRESH_PFN, VMMDLL_OPT_REFRESH_OBJ,
    VMMDLL_OPT_REFRESH_NET ]

/-- Bits 32..47 of an option key: the 16-bit trigger field of a refresh key. -/
def optTriggerField (k : Nat) : Nat := (k >>> 32) &&& 0xFFFF

/-- The bitwise OR of a list of keys. -/
def orAll (ks : List Nat) : Nat := ks.foldl (fun acc k => acc ||| k) 0

/-- The deprecated refresh triggers whose trigger bit is present in `x`. -/
def deprecatedTriggersIn (x : Nat) : List Nat :=
  VMMDLL_OPT_REFRESH_DEPRECATED_KEYS.filter
    (fun k => decide (optTriggerField x &&& optTriggerField k ≠ 0))

/-! ## Memory model (header lines 205-212) -/

def VMMDLL_MEMORYMODEL_TOSTRING : Array String := #["N/A", "X86", "X86PAE", "X64"]

inductive VMMDLL_MEMORYMODEL_TP where
  | VMMDLL_MEMORYMODEL_NA
  | VMMDLL_MEMORYMODEL_X86
  | VMMDLL_MEMORYMODEL_X86PAE
  | VMMDLL_MEMORYMODEL_X64
  deriving DecidableEq, Repr

/-- The integer value of each enumerator of `VMMDLL_MEMORYMODEL_TP`. -/
def VMMDLL_MEMORYMODEL_TP.val : VMMDLL_MEMORYMODEL_TP → Nat
  | .VMMDLL_MEMORYMODEL_NA => 0
  | .VMMDLL_MEMORYMODEL_X86 => 1
  | .VMMDLL_MEMORYMODEL_X86PAE => 2
  | .VMMDLL_MEMORYMODEL_X64 => 3

/-- The enumerators of `VMMDLL_MEMORYMODEL_TP`, in declaration order. -/
def VMMDLL_MEMORYMODEL_TP.all : List VMMDLL_MEMORYMODEL_TP :=
  [ .VMMDLL_MEMORYMODEL_NA, .VMMDLL_MEMORYMODEL_X86, .VMMDLL_MEMORYMODEL_X86PAE,
    .VMMDLL_MEMORYMODEL_X64 ]

/-- The array access `VMMDLL_MEMORYMODEL_TOSTRING[m]`; `none` when out of bounds. -/
def memoryModelToString (m : VMMDLL_MEMORYMODEL_TP) : Option String :=
  VMMDLL_MEMORYMODEL_TOSTRING[m.val]?

/-! ## Page table entry state tags (header lines 717-725) -/

inductive VMMDLL_PTE_TP where
  | VMMDLL_PTE_TP_NA
  | VMMDLL_PTE_TP_HARDWARE
  | VMMDLL_PTE_TP_TRANSITION
  | VMMDLL_PTE_TP_PROTOTYPE
  | VMMDLL_PTE_TP_DEMANDZERO
  | VMMDLL_PTE_TP_COMPRESSED
  | VMMDLL_PTE_TP_PAGEFILE
  deriving DecidableEq, Repr

/-- The integer value of each enumerator of `VMMDLL_PTE_TP`. -/
def VMMDLL_PTE_TP.val : VMMDLL_PTE_TP → Nat
  | .VMMDLL_PTE_TP_NA => 0
  | .VMMDLL_PTE_TP_HARDWARE => 1
  | .VMMDLL_PTE_TP_TRANSITION => 2
  | .VMMDLL_PTE_TP_PROTOTYPE => 3
  | .VMMDLL_PTE_TP_DEMANDZERO => 4
  | .VMMDLL_PTE_TP_COMPRESSED => 5
  | .VMMDLL_PTE_TP_PAGEFILE => 6

/-- The enumerators of `VMMDLL_PTE_TP`, in declaration order. -/
def VMMDLL_PTE_TP.all : List VMMDLL_PTE_TP :=
  [ .VMMDLL_PTE_TP_NA, .VMMDLL_PTE_TP_HARDWARE, .VMMDLL_PTE_TP_TRANSITION,
    .VMMDLL_PTE_TP_PROTOTYPE, .VMMDLL_PTE_TP_DEMANDZERO, .VMMDLL_PTE_TP_COMPRESSED,
    .VMMDLL_PTE_TP_PAGEFILE ]

/-- Reading a stored tag word as an enumerator of `VMMDLL_PTE_TP`. -/
def VMMDLL_PTE_TP.ofVal (v : Nat) : Option VMMDLL_PTE_TP :=
  VMMDLL_PTE_TP.all.find? (fun t => decide (t.val = v))

/-! ## Plugin notify event codes (header lines 456-462) -/

def VMMDLL_PLUGIN_NOTIFY_VERBOSITYCHANGE : Nat := 0x01
def VMMDLL_PLUGIN_NOTIFY_REFRESH_FAST : Nat := 0x05
def VMMDLL_PLUGIN_NOTIFY_REFRESH_MEDIUM : Nat := 0x02
def VMMDLL_PLUGIN_NOTIFY_REFRESH_SLOW : Nat := 0x04

def VMMDLL_PLUGIN_NOTIFY_FORENSIC_INIT : Nat := 0x01000100
def VMMDLL_PLUGIN_NOTIFY_FORENSIC_INIT_COMPLETE : Nat := 0x01000200

/-- The events a plugin's `pfnNotify` callback can be given in `fEvent`. -/
inductive NotifyEvent where
  | VERBOSITYCHANGE
  | REFRESH_FAST
  | REFRESH_MEDIUM
  | REFRESH_SLOW
  | FORENSIC_INIT
  | FORENSIC_INIT_COMPLETE
  deriving DecidableEq, Repr

/-- The code `VMMDLL_PLUGIN_NOTIFY_*` delivered for each event. -/
def NotifyEvent.code : NotifyEvent → Nat
  | .VERBOSITYCHANGE => VMMDLL_PLUGIN_NOTIFY_VERBOSITYCHANGE
  | .REFRESH_FAST => VMMDLL_PLUGIN_NOTIFY_REFRESH_FAST
  | .REFRESH_MEDIUM => VMMDLL_PLUGIN_NOTIFY_REFRESH_MEDIUM
  | .REFRESH_SLOW => VMMDLL_PLUGIN_NOTIFY_REFRESH_SLOW
  | .FORENSIC_INIT => VMMDLL_PLUGIN_NOTIFY_FORENSIC_INIT
  | .FORENSIC_INIT_COMPLETE => VMMDLL_PLUGIN_NOTIFY_FORENSIC_INIT_COMPLETE

/-- The notify events, in the order of the header. -/
def NotifyEvent.all : List NotifyEvent :=
  [ .VERBOSITYCHANGE, .REFRESH_FAST, .REFRESH_MEDIUM, .REFRESH_SLOW,
    .FORENSIC_INIT, .FORENSIC_INIT_COMPLETE ]

/-- The events a plugin that compares `fEvent` by equality takes the code `c` for. -/
def eventsMatching (c : Nat) : List NotifyEvent :=
  NotifyEvent.all.filter (fun e => decide (e.code = c))

/-! ## Structure declarations of the map blobs (header lines 336-353, 727-1083, 1311-1359) -/

/-- The C types that occur in the transcribed member declarations; `entry n` is
the entry structure `n`, which occurs only as the element type of the flexible
array member `pMap[]`. -/
inductive CType where
  | DWORD
  | QWORD
  | ULONG64
  | PBYTE
  | LPSTR
  | LPWSTR
  | entry (name : String)
  deriving DecidableEq, Repr

/-- The declarator shape of a member: `x`, `x[n]` or the flexible `x[]`. -/
inductive Shape where
  | scalar
  | array (n : Nat)
  | flexible
  deriving DecidableEq, Repr

/-- One member declaration of a structure. -/
structure Member where
  ty : CType
  name : String
  shape : Shape
  deriving DecidableEq, Repr

/-- A structure declaration: its typedef name and its members in declaration
order. -/
structure StructDecl where
  name : String
  members : List Member
  deriving DecidableEq, Repr

def VMMDLL_MAP_PTE : StructDecl :=
  { name := "VMMDLL_MAP_PTE",
    members :=
      [ ⟨.DWORD, "dwVersion", .scalar⟩,
        ⟨.DWORD, "_Reserved1", .array 5⟩,
        ⟨.PBYTE, "pbMultiText", .scalar⟩,
        ⟨.DWORD, "cbMultiText", .scalar⟩,
        ⟨.DWORD, "cMap", .scalar⟩,
        ⟨.entry "VMMDLL_MAP_PTEENTRY", "pMap", .flexible⟩ ] }

def VMMDLL_MAP_VAD : StructDecl :=
  { name := "VMMDLL_MAP_VAD",
    members :=
      [ ⟨.DWORD, "dwVersion", .scalar⟩,
        ⟨.DWORD, "_Reserved1", .array 4⟩,
        ⟨.DWORD, "cPage", .scalar⟩,
        ⟨.PBYTE, "pbMultiText", .scalar⟩,
        ⟨.DWORD, "cbMultiText", .scalar⟩,
        ⟨.DWORD, "cMap", .scalar⟩,
        ⟨.entry "VMMDLL_MAP_VADENTRY", "pMap", .flexible⟩ ] }

def VMMDLL_MAP_VADEX : StructDecl :=
  { name := "VMMDLL_MAP_VADEX",
    members :=
      [ ⟨.DWORD, "dwVersion", .scalar⟩,
        ⟨.DWORD, "_Reserved1", .array 4⟩,
        ⟨.DWORD, "cMap", .scalar⟩,
        ⟨.entry "VMMDLL_MAP_VADEXENTRY", "pMap", .flexible⟩ ] }

def VMMDLL_MAP_MODULE : StructDecl :=
  { name := "VMMDLL_MAP_MODULE",
    members :=
      [ ⟨.DWORD, "dwVersion", .scalar⟩,
        ⟨.DWORD, "_Reserved1", .array 5⟩,
        ⟨.PBYTE, "pbMultiText", .scalar⟩,
        ⟨.DWORD, "cbMultiText", .scalar⟩,
        ⟨.DWORD, "cMap", .scalar⟩,
        ⟨.entry "VMMDLL_MAP_MODULEENTRY", "pMap", .flexible⟩ ] }

def VMMDLL_MAP_UNLOADEDMODULE : StructDecl :=
  { name := "VMMDLL_MAP_UNLOADEDMODULE",
    members :=
      [ ⟨.DWORD, "dwVersion", .scalar⟩,
        ⟨.DWORD, "_Reserved1", .array 5⟩,
        ⟨.PBYTE, "pbMultiText", .scalar⟩,
        ⟨.DWORD, "cbMultiText", .scalar⟩,
        ⟨.DWORD, "cMap", .scalar⟩,
        ⟨.entry "VMMDLL_MAP_UNLOADEDMODULEENTRY", "pMap", .flexible⟩ ] }

def VMMDLL_MAP_EAT : StructDecl :=
  { name := "VMMDLL_MAP_EAT",
    members :=
      [ ⟨.DWORD, "dwVersion", .scalar⟩,
        ⟨.DWORD, "dwOrdinalBase", .scalar⟩,
        ⟨.DWORD, "cNumberOfNames", .scalar⟩,
        ⟨.DWORD, "cNumberOfFunctions", .scalar⟩,
        ⟨.DWORD, "_Reserved1", .array 4⟩,
        ⟨.QWORD, "vaModuleBase", .scalar⟩,
        ⟨.QWORD, "vaAddressOfFunctions", .scalar⟩,
        ⟨.QWORD, "vaAddressOfNames", .scalar⟩,
        ⟨.PBYTE, "pbMultiText", .scalar⟩,
        ⟨.DWORD, "cbMultiText", .scalar⟩,
        ⟨.DWORD, "cMap", .scalar⟩,
        ⟨.entry "VMMDLL_MAP_EATENTRY", "pMap", .flexible⟩ ] }

def VMMDLL_MAP_IAT : StructDecl :=
  { name := "VMMDLL_MAP_IAT",
    members :=
      [ ⟨.DWORD, "dwVersion", .scalar⟩,
        ⟨.DWORD, "_Reserved1", .array 5⟩,
        ⟨.QWORD, "vaModuleBase", .scalar⟩,
        ⟨.PBYTE, "pbMultiText", .scalar⟩,
        ⟨.DWORD, "cbMultiText", .scalar⟩,
        ⟨.DWORD, "cMap", .scalar⟩,
        ⟨.entry "VMMDLL_MAP_IATENTRY", "pMap", .flexible⟩ ] }

def VMMDLL_MAP_HEAP : StructDecl :=
  { name := "VMMDLL_MAP_HEAP",
    members :=
      [ ⟨.DWORD, "dwVersion", .scalar⟩,
        ⟨.DWORD, "_Reserved1", .array 8⟩,
        ⟨.DWORD, "cMap", .scalar⟩,
        ⟨.entry "VMMDLL_MAP_HEAPENTRY", "pMap", .flexible⟩ ] }

def VMMDLL_MAP_THREAD : StructDecl :=
  { name := "VMMDLL_MAP_THREAD",
    members :=
      [ ⟨.DWORD, "dwVersion", .scalar⟩,
        ⟨.DWORD, "_Reserved", .array 8⟩,
        ⟨.DWORD, "cMap", .scalar⟩,
        ⟨.entry "VMMDLL_MAP_THREADENTRY", "pMap", .flexible⟩ ] }

def VMMDLL_MAP_HANDLE : StructDecl :=
  { name := "VMMDLL_MAP_HANDLE",
    members :=
      [ ⟨.DWORD, "dwVersion", .scalar⟩,
        ⟨.DWORD, "_Reserved1", .array 5⟩,
        ⟨.PBYTE, "pbMultiText", .scalar⟩,
        ⟨.DWORD, "cbMultiText", .scalar⟩,
        ⟨.DWORD, "cMap", .scalar⟩,
        ⟨.entry "VMMDLL_MAP_HANDLEENTRY", "pMap", .flexible⟩ ] }

def VMMDLL_MAP_NET : StructDecl :=
  { name := "VMMDLL_MAP_NET",
    members :=
      [ ⟨.DWORD, "dwVersion", .scalar⟩,
        ⟨.DWORD, "_Reserved1", .scalar⟩,
        ⟨.PBYTE, "pbMultiText", .scalar⟩,
        ⟨.DWORD, "cbMultiText", .scalar⟩,
        ⟨.DWORD, "cMap", .scalar⟩,
        ⟨.entry "VMMDLL_MAP_NETENTRY", "pMap", .flexible⟩ ] }

def VMMDLL_MAP_PHYSMEM : StructDecl :=
  { name := "VMMDLL_MAP_PHYSMEM",
    members :=
      [ ⟨.DWORD, "dwVersion", .scalar⟩,
        ⟨.DWORD, "_Reserved1", .array 5⟩,
        ⟨.DWORD, "cMap", .scalar⟩,
        ⟨.DWORD, "_Reserved2", .scalar⟩,
        ⟨.entry "VMMDLL_MAP_PHYSMEMENTRY", "pMap", .flexible⟩ ] }

def VMMDLL_MAP_USER : StructDecl :=
  { name := "VMMDLL_MAP_USER",
    members :=
      [ ⟨.DWORD, "dwVersion", .scalar⟩,
        ⟨.DWORD, "_Reserved1", .array 5⟩,
        ⟨.PBYTE, "pbMultiText", .scalar⟩,
        ⟨.DWORD, "cbMultiText", .scalar⟩,
        ⟨.DWORD, "cMap", .scalar⟩,
        ⟨.entry "VMMDLL_MAP_USERENTRY", "pMap", .flexible⟩ ] }

def VMMDLL_MAP_SERVICE : StructDecl :=
  { name := "VMMDLL_MAP_SERVICE",
    members :=
      [ ⟨.DWORD, "dwVersion", .scalar⟩,
        ⟨.DWORD, "_Reserved1", .array 5⟩,
        ⟨.PBYTE, "pbMultiText", .scalar⟩,
        ⟨.DWORD, "cbMultiText", .scalar⟩,
        ⟨.DWORD, "cMap", .scalar⟩,
        ⟨.entry "VMMDLL_MAP_SERVICEENTRY", "pMap", .flexible⟩ ] }

def VMMDLL_MAP_PFN : StructDecl :=
  { name := "VMMDLL_MAP_PFN",
    members :=
      [ ⟨.DWORD, "dwVersion", .scalar⟩,
        ⟨.DWORD, "_Reserved1", .array 5⟩,
        ⟨.DWORD, "cMap", .scalar⟩,
        ⟨.entry "VMMDLL_MAP_PFNENTRY", "pMap", .flexible⟩ ] }

/-- The fifteen map header structures. -/
def VMMDLL_MAP_HEADERS : List StructDecl :=
  [ VMMDLL_MAP_PTE, VMMDLL_MAP_VAD, VMMDLL_MAP_VADEX, VMMDLL_MAP_MODULE,
    VMMDLL_MAP_UNLOADEDMODULE, VMMDLL_MAP_EAT, VMMDLL_MAP_IAT, VMMDLL_MAP_HEAP,
    VMMDLL_MAP_THREAD, VMMDLL_MAP_HANDLE, VMMDLL_MAP_NET, VMMDLL_MAP_PHYSMEM,
    VMMDLL_MAP_USER, VMMDLL_MAP_SERVICE, VMMDLL_MAP_PFN ]

/-- The data model a translation unit is compiled for: the size of a pointer
and the alignment of an 8-byte integer. -/
structure ABI where
  ptrSize : Nat
  align8 : Nat
  deriving DecidableEq, Repr

/-- The data models of the supported targets: 64-bit Windows and Linux, 32-bit
Windows, 32-bit Linux. -/
def ABIS : List ABI := [⟨8, 8⟩, ⟨4, 8⟩, ⟨4, 4⟩]

/-- Size in bytes of one element of a member type.  An entry structure occurs
only as the element type of a flexible array member, which occupies no bytes
of the header, so its size is not needed and is left 0. -/
def CType.size (abi : ABI) : CType → Nat
  | .DWORD => 4
  | .QWORD => 8
  | .ULONG64 => 8
  | .PBYTE => abi.ptrSize
  | .LPSTR => abi.ptrSize
  | .LPWSTR => abi.ptrSize
  | .entry _ => 0

/-- Alignment of a member type; every entry structure has an 8-byte integer
member and so the alignment of one. -/
def CType.align (abi : ABI) : CType → Nat
  | .DWORD => 4
  | .QWORD => abi.align8
  | .ULONG64 => abi.align8
  | .PBYTE => abi.ptrSize
  | .LPSTR => abi.ptrSize
  | .LPWSTR => abi.ptrSize
  | .entry _ => abi.align8

/-- Bytes a member occupies inside its structure. -/
def Member.size (abi : ABI) (m : Member) : Nat :=
  match m.shape with
  | .scalar => m.ty.size abi
  | .array n => n * m.ty.size abi
  | .flexible => 0

/-- The address `x` rounded up to a multiple of `a`. -/
def alignUp (x a : Nat) : Nat := (x + a - 1) / a * a

/-- The member offsets of a structure, members laid out in declaration order,
each at the next address aligned for its type, starting at offset `off`. -/
def layoutFrom (abi : ABI) : Nat → List Member → List (String × Nat)
  | _, [] => []
  | off, m :: rest =>
    (m.name, alignUp off (m.ty.align abi))
      :: layoutFrom abi (alignUp off (m.ty.align abi) + m.size abi) rest

/-- The C `offsetof(s, name)`. -/
def StructDecl.offsetOf (abi : ABI) (s : StructDecl) (name : String) : Option Nat :=
  (layoutFrom abi 0 s.members).lookup name

/-- The member of a structure with the given name. -/
def StructDecl.member? (s : StructDecl) (name : String) : Option Member :=
  s.members.find? (fun m => decide (m.name = name))

/-- The position of a member in declaration order. -/
def StructDecl.indexOf (s : StructDecl) (name : String) : Nat :=
  (s.members.map (fun m => m.name)).indexOf name

/-- A union marked `U/W dependant` in an entry structure: the text reference
of the entry, as `LPSTR usz..` in the U variant of the query and `LPWSTR wsz..`
in the W variant, with the padding member some of the unions have. -/
structure TextUnion where
  owner : String
  usz : Member
  wsz : Member
  pad : Option Member
  deriving DecidableEq, Repr

/-- The `U/W dependant` unions of the map entry structures, in header order. -/
def VMMDLL_MAP_TEXT_UNIONS : List TextUnion :=
  [ ⟨"VMMDLL_MAP_PTEENTRY", ⟨.LPSTR, "uszText", .scalar⟩, ⟨.LPWSTR, "wszText", .scalar⟩, none⟩,
    ⟨"VMMDLL_MAP_VADENTRY", ⟨.LPSTR, "uszText", .scalar⟩, ⟨.LPWSTR, "wszText", .scalar⟩, none⟩,
    ⟨"VMMDLL_MAP_MODULEENTRY", ⟨.LPSTR, "uszText", .scalar⟩, ⟨.LPWSTR, "wszText", .scalar⟩, none⟩,
    ⟨"VMMDLL_MAP_MODULEENTRY", ⟨.LPSTR, "uszFullName", .scalar⟩,
      ⟨.LPWSTR, "wszFullName", .scalar⟩, none⟩,
    ⟨"VMMDLL_MAP_UNLOADEDMODULEENTRY", ⟨.LPSTR, "uszText", .scalar⟩,
      ⟨.LPWSTR, "wszText", .scalar⟩, none⟩,
    ⟨"VMMDLL_MAP_EATENTRY", ⟨.LPSTR, "uszFunction", .scalar⟩,
      ⟨.LPWSTR, "wszFunction", .scalar⟩, none⟩,
    ⟨"VMMDLL_MAP_IATENTRY", ⟨.LPSTR, "uszFunction", .scalar⟩,
      ⟨.LPWSTR, "wszFunction", .scalar⟩, none⟩,
    ⟨"VMMDLL_MAP_IATENTRY", ⟨.LPSTR, "uszModule", .scalar⟩,
      ⟨.LPWSTR, "wszModule", .scalar⟩, none⟩,
    ⟨"VMMDLL_MAP_HANDLEENTRY", ⟨.LPSTR, "uszText", .scalar⟩, ⟨.LPWSTR, "wszText", .scalar⟩, none⟩,
    ⟨"VMMDLL_MAP_HANDLEENTRY", ⟨.LPSTR, "uszType", .scalar⟩, ⟨.LPWSTR, "wszType", .scalar⟩,
      some ⟨.QWORD, "_Pad1", .scalar⟩⟩,
    ⟨"VMMDLL_MAP_NETENTRY", ⟨.LPSTR, "Src.uszText", .scalar⟩,
      ⟨.LPWSTR, "Src.wszText", .scalar⟩, none⟩,
    ⟨"VMMDLL_MAP_NETENTRY", ⟨.LPSTR, "Dst.uszText", .scalar⟩,
      ⟨.LPWSTR, "Dst.wszText", .scalar⟩, none⟩,
    ⟨"VMMDLL_MAP_NETENTRY", ⟨.LPSTR, "uszText", .scalar⟩, ⟨.LPWSTR, "wszText", .scalar⟩, none⟩,
    ⟨"VMMDLL_MAP_USERENTRY", ⟨.LPSTR, "uszText", .scalar⟩, ⟨.LPWSTR, "wszText", .scalar⟩, none⟩,
    ⟨"VMMDLL_MAP_USERENTRY", ⟨.LPSTR, "uszSID", .scalar⟩, ⟨.LPWSTR, "wszSID", .scalar⟩, none⟩,
    ⟨"VMMDLL_MAP_SERVICEENTRY", ⟨.LPSTR, "uszServiceName", .scalar⟩,
      ⟨.LPWSTR, "wszServiceName", .scalar⟩, some ⟨.QWORD, "_Reserved1", .scalar⟩⟩,
    ⟨"VMMDLL_MAP_SERVICEENTRY", ⟨.LPSTR, "uszDisplayName", .scalar⟩,
      ⟨.LPWSTR, "wszDisplayName", .scalar⟩, some ⟨.QWORD, "_Reserved2", .scalar⟩⟩,
    ⟨"VMMDLL_MAP_SERVICEENTRY", ⟨.LPSTR, "uszPath", .scalar⟩,
      ⟨.LPWSTR, "wszPath", .scalar⟩, some ⟨.QWORD, "_Reserved3", .scalar⟩⟩,
    ⟨"VMMDLL_MAP_SERVICEENTRY", ⟨.LPSTR, "uszUserTp", .scalar⟩,
      ⟨.LPWSTR, "wszUserTp", .scalar⟩, some ⟨.QWORD, "_Reserved4", .scalar⟩⟩,
    ⟨"VMMDLL_MAP_SERVICEENTRY", ⟨.LPSTR, "uszUserAcct", .scalar⟩,
      ⟨.LPWSTR, "wszUserAcct", .scalar⟩, some ⟨.QWORD, "_Reserved5", .scalar⟩⟩,
    ⟨"VMMDLL_MAP_SERVICEENTRY", ⟨.LPSTR, "uszImagePath", .scalar⟩,
      ⟨.LPWSTR, "wszImagePath", .scalar⟩, some ⟨.QWORD, "_Reserved6", .scalar⟩⟩ ]

/-- The member `ouszName` of `VMMDLL_VFS_FILELISTBLOB_ENTRY` ("byte offset to
string from VMMDLL_VFS_FILELISTBLOB.uszMultiText"). -/
def VMMDLL_VFS_FILELISTBLOB_ENTRY_ouszName : Member := ⟨.ULONG64, "ouszName", .scalar⟩

/-- How a member of a given type can refer to text: a pointer type holds an
address, an integer type holds a number such as a byte offset. -/
inductive RefKind where
  | pointer
  | byteOffset
  deriving DecidableEq, Repr

/-- The kind of reference a member of each type holds; an entry structure is
neither. -/
def CType.refKind : CType → Option RefKind
  | .DWORD => some .byteOffset
  | .QWORD => some .byteOffset
  | .ULONG64 => some .byteOffset
  | .PBYTE => some .pointer
  | .LPSTR => some .pointer
  | .LPWSTR => some .pointer
  | .entry _ => none

/-- The map headers that carry a text region: those with a `pbMultiText`
member. -/
def VMMDLL_MAP_HEADERS_WITH_TEXT : List StructDecl :=
  VMMDLL_MAP_HEADERS.filter (fun h => (h.member? "pbMultiText").isSome)

/-- The entry structure a map header holds in `pMap[]`. -/
def StructDecl.entryName (s : StructDecl) : Option String :=
  match s.member? "pMap" with
  | some ⟨.entry n, _, _⟩ => some n
  | _ => none

/-! ## Scatter read/write engine (declarations at header lines 597-674)

The header declares the memory access functions and documents their results;
their bodies are in the engine, outside the header. -/

/-- Whether the flag `f` is present in the flag word `flags`. -/
def hasFlag (flags f : Nat) : Bool := flags &&& f != 0

/-- The restriction written in the comment of VMMDLL_FLAG_FORCECACHE_READ:
"only valid for reads, invalid with VMM_FLAG_NOCACHE/VMM_FLAG_ZEROPAD_ON_FAIL". -/
def readFlagsValid (flags : Nat) : Bool :=
  !(hasFlag flags VMMDLL_FLAG_FORCECACHE_READ &&
    (hasFlag flags VMMDLL_FLAG_NOCACHE || hasFlag flags VMMDLL_FLAG_ZEROPAD_ON_FAIL))

/-- Modelled from the spec: the scatter unit of work `MEM_SCATTER`, declared in
leechcore.h which is not among the sources ("one unit of work - target
address, a fixed 4096-byte-or-less buffer"): the address `qwA` and the byte
count `cb`; the outcome of an item is returned by the engine. -/
structure MEM_SCATTER where
  qwA : Nat
  cb : Nat
  deriving DecidableEq, Repr

/-- Modelled from the spec: the state and the collaborators of the scatter
engine, whose implementation is missing (sections 3 and 4.2): the data cache
keyed by address space and page address, the address translator, the
acquisition backend that reads a physical page or fails and that commits a
write of `cb` bytes or not, and the set of known processes. -/
structure Engine where
  cache : Nat → Nat → Option (List Nat)
  translate : Nat → Nat → Option Nat
  backendRead : Nat → Option (List Nat)
  backendWrite : Nat → Nat → Bool
  processExists : Nat → Bool

/-- The base address of the 4096-byte page that holds address `a`. -/
def pageBase (a : Nat) : Nat := a - a % 0x1000

/-- The `cb` bytes at address `qwA` out of the content of its page. -/
def pageSlice (page : List Nat) (it : MEM_SCATTER) : List Nat :=
  (page.drop (it.qwA % 0x1000)).take it.cb

/-- Modelled from the spec: the write-back of a page into the data cache. -/
def Engine.cachePut (E : Engine) (dwPID page : Nat) (data : List Nat) : Engine :=
  { E with cache := fun p a => if p = dwPID ∧ a = page then some data else E.cache p a }

/-- Modelled from the spec: whether `dwPID` names an address space, the
physical one or that of a known process. -/
def Engine.addressSpaceExists (E : Engine) (dwPID : Nat) : Bool :=
  dwPID == VMMDLL_PID_PHYSICAL || E.processExists dwPID

/-- Modelled from the spec: the engine's work on one scatter item, missing from
the sources (section 4.2): "if the NOCACHE flag is absent, consult the Memory
Cache; on hit fill from cache", FORCECACHE_READ "treats a miss as item
failure"; "on miss, translate (virtual space only) then forward to the
backend"; "on backend success, optionally write back into the cache unless
NOCACHEPUT is set"; ZEROPAD_ON_FAIL has failed physical reads "zero-filled and
reported as success", in the physical space only.  The result is the new
engine state and the bytes of the item, `none` for a failed item. -/
def scatterReadItem (E : Engine) (dwPID flags : Nat) (it : MEM_SCATTER) :
    Engine × Option (List Nat) :=
  match (if hasFlag flags VMMDLL_FLAG_NOCACHE then none else E.cache dwPID (pageBase it.qwA)) with
  | some data => (E, some (pageSlice data it))
  | none =>
    if hasFlag flags VMMDLL_FLAG_FORCECACHE_READ then (E, none)
    else
      match (if dwPID = VMMDLL_PID_PHYSICAL then some (pageBase it.qwA)
             else E.translate dwPID (pageBase it.qwA)) with
      | none => (E, none)
      | some pa =>
        match E.backendRead pa with
        | some data =>
          (if hasFlag flags VMMDLL_FLAG_NOCACHEPUT then E
           else E.cachePut dwPID (pageBase it.qwA) data,
           some (pageSlice data it))
        | none =>
          if hasFlag flags VMMDLL_FLAG_ZEROPAD_ON_FAIL ∧ dwPID = VMMDLL_PID_PHYSICAL then
            (E, some (List.replicate it.cb 0))
          else (E, none)

/-- Modelled from the spec: the engine's work on a scatter request, item by
item, each "filled independently"; the result lists the outcome of every
item in order. -/
def scatterRead (E : Engine) (dwPID flags : Nat) :
    List MEM_SCATTER → Engine × List (Option (List Nat))
  | [] => (E, [])
  | it :: rest =>
    ((scatterRead (scatterReadItem E dwPID flags it).1 dwPID flags rest).1,
     (scatterReadItem E dwPID flags it).2
       :: (scatterRead (scatterReadItem E dwPID flags it).1 dwPID flags rest).2)

/-- Modelled from the spec: `VMMDLL_MemReadScatter`, of which the header has the
declaration only: the request is the array `ppMEMs` of `cpMEMs` items, and the
"return = the number of successfully read items". -/
def VMMDLL_MemReadScatter (E : Engine) (dwPID : Nat) (ppMEMs : List MEM_SCATTER)
    (flags : Nat) : Nat :=
  ((scatterRead E dwPID flags ppMEMs).2.filter (fun r => r.isSome)).length

/-- The page-bounded fragments of the `cb` bytes at `qwA`; every step takes
the bytes up to the end of the current page, so `fuel = cb` steps suffice. -/
def fragmentsAux : Nat → Nat → Nat → List MEM_SCATTER
  | 0, _, _ => []
  | fuel + 1, qwA, cb =>
    if cb = 0 then []
    else
      ⟨qwA, min cb (0x1000 - qwA % 0x1000)⟩
        :: fragmentsAux fuel (qwA + min cb (0x1000 - qwA % 0x1000))
            (cb - min cb (0x1000 - qwA % 0x1000))

/-- Modelled from the spec: the fragmenting of a contiguous range "into
page-bounded ScatterItems" (section 4.2). -/
def fragments (qwA cb : Nat) : List MEM_SCATTER := fragmentsAux cb qwA cb

/-- The bytes transferred by a request: the sum of the byte counts of the
items whose outcome is a success. -/
def bytesTransferred : List MEM_SCATTER → List Bool → Nat
  | it :: its, ok :: oks => (if ok then it.cb else 0) + bytesTransferred its oks
  | _, _ => 0

/-- Modelled from the spec: `VMMDLL_MemReadEx`, of which the header has the
declaration only.  The range is fragmented and read through the scatter
engine; the second component is `*pcbReadOpt`, "the number of bytes read".
The return value follows the note on the declaration, "reads may report as
success even if 0 bytes are read": it is success whenever `dwPID` names an
address space and does not depend on the byte count. -/
def VMMDLL_MemReadEx (E : Engine) (dwPID qwA cb flags : Nat) : Bool × Nat :=
  if E.addressSpaceExists dwPID then
    (true,
     bytesTransferred (fragments qwA cb)
       ((scatterRead E dwPID flags (fragments qwA cb)).2.map (fun r => r.isSome)))
  else (false, 0)

/-- Modelled from the spec: `VMMDLL_MemRead`, of which the header has the
declaration only: "return = success/fail (depending if all requested bytes
are read or not)". -/
def VMMDLL_MemRead (E : Engine) (dwPID qwA cb : Nat) : Bool :=
  (VMMDLL_MemReadEx E dwPID qwA cb 0).1 && (VMMDLL_MemReadEx E dwPID qwA cb 0).2 == cb

/-- Modelled from the spec: the engine's write of one page-bounded fragment:
"writes bypass the cache on the target path and go directly to the backend";
the result tells whether the backend committed the fragment. -/
def scatterWriteItem (E : Engine) (dwPID : Nat) (it : MEM_SCATTER) : Bool :=
  match (if dwPID = VMMDLL_PID_PHYSICAL then some it.qwA else E.translate dwPID it.qwA) with
  | none => false
  | some pa => E.backendWrite pa it.cb

/-- Modelled from the spec: the number of bytes the backend committed for a
contiguous write of `cb` bytes at `qwA`. -/
def memWriteCommitted (E : Engine) (dwPID qwA cb : Nat) : Nat :=
  bytesTransferred (fragments qwA cb) ((fragments qwA cb).map (scatterWriteItem E dwPID))

/-- Modelled from the spec: `VMMDLL_MemWrite`, of which the header has the
declaration only: "return = TRUE on success, FALSE on partial or zero write". -/
def VMMDLL_MemWrite (E : Engine) (dwPID qwA cb : Nat) : Bool :=
  if memWriteCommitted E dwPID qwA cb = 0 then false
  else if memWriteCommitted E dwPID qwA cb < cb then false
  else true

/-! ## Virtual file system reads (declarations at header lines 388-419) -/

/-- Modelled from the spec: `VMMDLL_UtilVfsReadFile_FromPBYTE`, of which the
header has the declaration only: a read of `cb` bytes at `cbOffset` from the
in-memory file `pbFile` of `cbFile` bytes.  A read "beyond its reported file
size range returns the end-of-file result code with a read count of zero";
a read inside the file transfers the bytes up to the end of the file.  The
result is the status, `*pcbRead` and the bytes put into `pb`. -/
def VMMDLL_UtilVfsReadFile_FromPBYTE (pbFile : List Nat) (cbFile cb cbOffset : Nat) :
    Nat × Nat × List Nat :=
  if cbFile ≤ cbOffset then (VMMDLL_STATUS_END_OF_FILE, 0, [])
  else
    (VMMDLL_STATUS_SUCCESS, min cb (cbFile - cbOffset),
     (pbFile.drop cbOffset).take (min cb (cbFile - cbOffset)))

/-- Modelled from the spec: `VMMDLL_VfsReadU`, of which the header has the
declaration only, over a file system whose files are held in memory: a path
that names no file is an invalid file, a file is read at the offset. -/
def VMMDLL_VfsReadU (vfs : List (String × List Nat)) (uszFileName : String)
    (cb cbOffset : Nat) : Nat × Nat × List Nat :=
  match vfs.lookup uszFileName with
  | none => (VMMDLL_STATUS_FILE_INVALID, 0, [])
  | some pbFile => VMMDLL_UtilVfsReadFile_FromPBYTE pbFile pbFile.length cb cbOffset

/-! ## Map queries (header lines 696-709, 727-769, 857-900, 1085-1232) -/

def VMMDLL_MAP_PTE_VERSION : Nat := 2
def VMMDLL_MAP_VAD_VERSION : Nat := 6
/-- The region members of `VMMDLL_MAP_PTEENTRY`: base address, number of
pages and page flags. -/
structure VMMDLL_MAP_PTEENTRY where
  vaBase : Nat
  cPages : Nat
  fPage : Nat
  deriving DecidableEq, Repr

/-- The range members of `VMMDLL_MAP_VADENTRY`. -/
structure VMMDLL_MAP_VADENTRY where
  vaStart : Nat
  vaEnd : Nat
  deriving DecidableEq, Repr

/-- Modelled from the spec: a map snapshot, "an ordered, immutable sequence of
typed entries plus an associated variable-length text blob". -/
structure MapSnapshot (α : Type) where
  entries : List α
  multiText : List Nat

/-- Modelled from the spec: the blob a map query delivers, "version tag, entry
count, fixed-size entry array, trailing variable-length text region". -/
structure MapBlob (α : Type) where
  dwVersion : Nat
  cMap : Nat
  pMap : List α
  multiText : List Nat

/-- The byte count of the blob of a snapshot, for a header of `cbHeader` bytes
and entries of `cbEntry` bytes. -/
def mapBlobSize {α : Type} (cbHeader cbEntry : Nat) (s : MapSnapshot α) : Nat :=
  cbHeader + s.entries.length * cbEntry + s.multiText.length

/-- Modelled from the spec: the two-call convention shared by the map queries
`VMMDLL_Map_Get*`, of which the header has the declarations only.  `snap` is
the snapshot of the queried object, `none` when there is none; `pMap` tells
whether a buffer is passed and `cbMap` is the byte count `*pcbMap`.  "If pMap
is set to NULL the number of bytes required will be returned"; otherwise the
buffer must be "of minimum byte length" the required size.  The byte count is
a DWORD, so a blob whose size does not fit one cannot be delivered.  The
result is the return value, the new `*pcbMap` and the delivered blob. -/
def VMMDLL_Map_Get {α : Type} (dwVersion cbHeader cbEntry : Nat)
    (snap : Option (MapSnapshot α)) (pMap : Bool) (cbMap : Nat) :
    Bool × Nat × Option (MapBlob α) :=
  match snap with
  | none => (false, cbMap, none)
  | some s =>
    if 0x100000000 ≤ mapBlobSize cbHeader cbEntry s then (false, cbMap, none)
    else if pMap = false then (true, mapBlobSize cbHeader cbEntry s, none)
    else if cbMap < mapBlobSize cbHeader cbEntry s then (false, cbMap, none)
    else
      (true, mapBlobSize cbHeader cbEntry s,
       some ⟨dwVersion, s.entries.length, s.entries, s.multiText⟩)

/-- Modelled from the spec: the builder of the PTE map, missing from the
sources ("memory map entries based on hardware page tables"): a walk over the
pages of the address space in ascending order, `none` for a page that is not
mapped and `some f` for a page mapped with flags `f`, which joins adjacent
pages of equal flags into one region.  `va` is the address of the next page
and `cur` the region being extended. -/
def pteScan : Nat → Option VMMDLL_MAP_PTEENTRY → List (Option Nat) → List VMMDLL_MAP_PTEENTRY
  | _, none, [] => []
  | _, some e, [] => [e]
  | va, none, none :: rest => pteScan (va + 0x1000) none rest
  | va, none, some f :: rest => pteScan (va + 0x1000) (some ⟨va, 1, f⟩) rest
  | va, some e, none :: rest => e :: pteScan (va + 0x1000) none rest
  | va, some e, some f :: rest =>
    if f = e.fPage then pteScan (va + 0x1000) (some ⟨e.vaBase, e.cPages + 1, e.fPage⟩) rest
    else e :: pteScan (va + 0x1000) (some ⟨va, 1, f⟩) rest

/-- Modelled from the spec: the PTE map of a page table walked from address 0. -/
def pteMapBuild (pages : List (Option Nat)) : List VMMDLL_MAP_PTEENTRY :=
  pteScan 0 none pages

/-- Modelled from the spec: `VMMDLL_Map_GetPteU`, of which the header has the
declaration only; `proc` is the page table and map text of the process
`dwPID`, `none` when there is no such process. -/
def VMMDLL_Map_GetPteU (cbHeader cbEntry : Nat) (proc : Option (List (Option Nat) × List Nat))
    (pPteMap : Bool) (cbPteMap : Nat) : Bool × Nat × Option (MapBlob VMMDLL_MAP_PTEENTRY) :=
  VMMDLL_Map_Get VMMDLL_MAP_PTE_VERSION cbHeader cbEntry
    (proc.map (fun p => ⟨pteMapBuild p.1, p.2⟩)) pPteMap cbPteMap

/-- Insertion of an entry into a list sorted by `key`, before the first entry
of larger key. -/
def insertByKey {α : Type} (key : α → Nat) (a : α) : List α → List α
  | [] => [a]
  | b :: rest => if key a ≤ key b then a :: b :: rest else b :: insertByKey key a rest

/-- Modelled from the spec: the delivery of parsed entries "sorted by a
documented key" by the map builders, missing from the sources. -/
def sortByKey {α : Type} (key : α → Nat) : List α → List α
  | [] => []
  | a :: rest => insertByKey key a (sortByKey key rest)

/-- Modelled from the spec: `VMMDLL_Map_GetVadU`, of which the header has the
declaration only ("Entries returned are sorted on VMMDLL_MAP_VADENTRY.vaStart");
`proc` is the parsed entries and map text of the process, `none` when there is
no such process. -/
def VMMDLL_Map_GetVadU (cbHeader cbEntry : Nat)
    (proc : Option (List VMMDLL_MAP_VADENTRY × List Nat)) (pVadMap : Bool) (cbVadMap : Nat) :
    Bool × Nat × Option (MapBlob VMMDLL_MAP_VADENTRY) :=
  VMMDLL_Map_Get VMMDLL_MAP_VAD_VERSION cbHeader cbEntry
    (proc.map (fun p => ⟨sortByKey (fun e => e.vaStart) p.1, p.2⟩)) pVadMap cbVadMap

/-- An engine state for concrete evaluation: an empty cache, the identity
translation for process 4, and a backend that delivers and commits the two
pages below `0x2000` only. -/
def engineTwoPages : Engine :=
  { cache := fun _ _ => none,
    translate := fun p va => if p = 4 then some va else none,
    backendRead := fun pa => if pa < 0x2000 then some (List.replicate 0x1000 0xCC) else none,
    backendWrite := fun pa _ => decide (pa < 0x2000),
    processExists := fun p => p == 4 }

/-! ## Page flags of the PTE map (header lines 711-715) -/

def VMMDLL_MEMMAP_FLAG_PAGE_W : Nat := 0x0000000000000002
def VMMDLL_MEMMAP_FLAG_PAGE_NS : Nat := 0x0000000000000004
def VMMDLL_MEMMAP_FLAG_PAGE_NX : Nat := 0x8000000000000000
def VMMDLL_MEMMAP_FLAG_PAGE_MASK : Nat := 0x8000000000000006

/-! ## Bit-fields (header lines 738-769, 1311-1352) -/

/-- Bits 48..63 of an option key: its tag. -/
def optTag (k : Nat) : Nat := k >>> 48

/-- The integer types bit-fields and overlaid members are declared with. -/
inductive IntType where
  | BYTE
  | WORD
  | DWORD
  | QWORD
  deriving DecidableEq, Repr

/-- The width in bits of an integer type. -/
def IntType.bits : IntType → Nat
  | .BYTE => 8
  | .WORD => 16
  | .DWORD => 32
  | .QWORD => 64

/-- A bit-field declaration `ty name : width; // Pos pos`. -/
structure BitField where
  ty : IntType
  name : String
  width : Nat
  pos : Nat
  deriving DecidableEq, Repr

/-- The bit-fields of DWORD 0 of `VMMDLL_MAP_VADENTRY`. -/
def VMMDLL_MAP_VADENTRY_DWORD0 : List BitField :=
  [ ⟨.DWORD, "VadType", 3, 0⟩,
    ⟨.DWORD, "Protection", 5, 3⟩,
    ⟨.DWORD, "fImage", 1, 8⟩,
    ⟨.DWORD, "fFile", 1, 9⟩,
    ⟨.DWORD, "fPageFile", 1, 10⟩,
    ⟨.DWORD, "fPrivateMemory", 1, 11⟩,
    ⟨.DWORD, "fTeb", 1, 12⟩,
    ⟨.DWORD, "fStack", 1, 13⟩,
    ⟨.DWORD, "fSpare", 2, 14⟩,
    ⟨.DWORD, "HeapNum", 7, 16⟩,
    ⟨.DWORD, "fHeap", 1, 23⟩,
    ⟨.DWORD, "cwszDescription", 8, 24⟩ ]

/-- The bit-fields of DWORD 1 of `VMMDLL_MAP_VADENTRY`. -/
def VMMDLL_MAP_VADENTRY_DWORD1 : List BitField :=
  [ ⟨.DWORD, "CommitCharge", 31, 0⟩,
    ⟨.DWORD, "MemCommit", 1, 31⟩ ]

/-- The member `WORD ReferenceCount` that opens the structure overlaid on
`DWORD _u3` in `VMMDLL_MAP_PFNENTRY`. -/
def VMMDLL_MAP_PFNENTRY_ReferenceCount : IntType := IntType.WORD

/-- The bit-fields of the first `BYTE` after `ReferenceCount`. -/
def VMMDLL_MAP_PFNENTRY_U3_BYTE0 : List BitField :=
  [ ⟨.BYTE, "PageLocation", 3, 0⟩,
    ⟨.BYTE, "WriteInProgress", 1, 3⟩,
    ⟨.BYTE, "Modified", 1, 4⟩,
    ⟨.BYTE, "ReadInProgress", 1, 5⟩,
    ⟨.BYTE, "CacheAttribute", 2, 6⟩ ]

/-- The bit-fields of the second `BYTE` after `ReferenceCount`. -/
def VMMDLL_MAP_PFNENTRY_U3_BYTE1 : List BitField :=
  [ ⟨.BYTE, "Priority", 3, 0⟩,
    ⟨.BYTE, "Rom_OnProtectedStandby", 1, 3⟩,
    ⟨.BYTE, "InPageError", 1, 4⟩,
    ⟨.BYTE, "KernelStack_SystemChargedPage", 1, 5⟩,
    ⟨.BYTE, "RemovalRequested", 1, 6⟩,
    ⟨.BYTE, "ParityError", 1, 7⟩ ]

/-- The member `DWORD PteFrame` that opens the structure overlaid on
`QWORD _u4` in `VMMDLL_MAP_PFNENTRY`. -/
def VMMDLL_MAP_PFNENTRY_PteFrame : IntType := IntType.DWORD

/-- The bit-fields after `PteFrame`. -/
def VMMDLL_MAP_PFNENTRY_U4_FIELDS : List BitField :=
  [ ⟨.DWORD, "PteFrameHigh", 4, 32⟩,
    ⟨.DWORD, "_Reserved", 21, 36⟩,
    ⟨.DWORD, "PrototypePte", 1, 57⟩,
    ⟨.DWORD, "PageColor", 6, 58⟩ ]

/-- The total width of a list of bit-fields. -/
def totalWidth (fs : List BitField) : Nat := (fs.map (fun f => f.width)).sum

/-- The positions of bit-fields allocated one after the other from bit `base`:
each position is `base` plus the sum of the preceding widths. -/
def allocatedPositions : Nat → List BitField → List Nat
  | _, [] => []
  | base, f :: rest => base :: allocatedPositions (base + f.width) rest

/-- The bit-fields of a list whose bit range holds bit `b`. -/
def fieldsCovering (fs : List BitField) (b : Nat) : List BitField :=
  fs.filter (fun f => decide (f.pos ≤ b ∧ b < f.pos + f.width))

/-- The word that holds each field's value shifted to the field's position. -/
def packFields : List (BitField × Nat) → Nat
  | [] => 0
  | fv :: rest => (fv.2 <<< fv.1.pos) ||| packFields rest

/-- The value of a field in a packed word, by shift and mask. -/
def extractField (w : Nat) (f : BitField) : Nat := (w >>> f.pos) &&& (2 ^ f.width - 1)

/-! ## Page frame number types (header lines 1286-1309) -/

def VMMDLL_PFN_TYPE_TEXT : Array String :=
  #["Zero", "Free", "Standby", "Modifiy", "ModNoWr", "Bad", "Active", "Transit"]

def VMMDLL_PFN_TYPEEXTENDED_TEXT : Array String :=
  #["-", "Unused", "ProcPriv", "PageTable", "LargePage", "DriverLock", "Shareable", "File"]

inductive VMMDLL_MAP_PFN_TYPE where
  | VmmDll_PfnTypeZero
  | VmmDll_PfnTypeFree
  | VmmDll_PfnTypeStandby
  | VmmDll_PfnTypeModified
  | VmmDll_PfnTypeModifiedNoWrite
  | VmmDll_PfnTypeBad
  | VmmDll_PfnTypeActive
  | VmmDll_PfnTypeTransition
  deriving DecidableEq, Repr

/-- The integer value of each enumerator of `VMMDLL_MAP_PFN_TYPE`. -/
def VMMDLL_MAP_PFN_TYPE.val : VMMDLL_MAP_PFN_TYPE → Nat
  | .VmmDll_PfnTypeZero => 0
  | .VmmDll_PfnTypeFree => 1
  | .VmmDll_PfnTypeStandby => 2
  | .VmmDll_PfnTypeModified => 3
  | .VmmDll_PfnTypeModifiedNoWrite => 4
  | .VmmDll_PfnTypeBad => 5
  | .VmmDll_PfnTypeActive => 6
  | .VmmDll_PfnTypeTransition => 7

/-- The identifier of each enumerator of `VMMDLL_MAP_PFN_TYPE`. -/
def VMMDLL_MAP_PFN_TYPE.ident : VMMDLL_MAP_PFN_TYPE → String
  | .VmmDll_PfnTypeZero => "VmmDll_PfnTypeZero"
  | .VmmDll_PfnTypeFree => "VmmDll_PfnTypeFree"
  | .VmmDll_PfnTypeStandby => "VmmDll_PfnTypeStandby"
  | .VmmDll_PfnTypeModified => "VmmDll_PfnTypeModified"
  | .VmmDll_PfnTypeModifiedNoWrite => "VmmDll_PfnTypeModifiedNoWrite"
  | .VmmDll_PfnTypeBad => "VmmDll_PfnTypeBad"
  | .VmmDll_PfnTypeActive => "VmmDll_PfnTypeActive"
  | .VmmDll_PfnTypeTransition => "VmmDll_PfnTypeTransition"

/-- The name of an enumerator: its identifier after the common prefix
`VmmDll_PfnType`. -/
def VMMDLL_MAP_PFN_TYPE.name (t : VMMDLL_MAP_PFN_TYPE) : String :=
  String.mk (t.ident.data.drop "VmmDll_PfnType".length)

/-- The enumerators of `VMMDLL_MAP_PFN_TYPE`, in declaration order. -/
def VMMDLL_MAP_PFN_TYPE.all : List VMMDLL_MAP_PFN_TYPE :=
  [ .VmmDll_PfnTypeZero, .VmmDll_PfnTypeFree, .VmmDll_PfnTypeStandby,
    .VmmDll_PfnTypeModified, .VmmDll_PfnTypeModifiedNoWrite, .VmmDll_PfnTypeBad,
    .VmmDll_PfnTypeActive, .VmmDll_PfnTypeTransition ]

inductive VMMDLL_MAP_PFN_TYPEEXTENDED where
  | VmmDll_PfnExType_Unknown
  | VmmDll_PfnExType_Unused
  | VmmDll_PfnExType_ProcessPrivate
  | VmmDll_PfnExType_PageTable
  | VmmDll_PfnExType_LargePage
  | VmmDll_PfnExType_DriverLocked
  | VmmDll_PfnExType_Shareable
  | VmmDll_PfnExType_File
  deriving DecidableEq, Repr

/-- The integer value of each enumerator of `VMMDLL_MAP_PFN_TYPEEXTENDED`. -/
def VMMDLL_MAP_PFN_TYPEEXTENDED.val : VMMDLL_MAP_PFN_TYPEEXTENDED → Nat
  | .VmmDll_PfnExType_Unknown => 0
  | .VmmDll_PfnExType_Unused => 1
  | .VmmDll_PfnExType_ProcessPrivate => 2
  | .VmmDll_PfnExType_PageTable => 3
  | .VmmDll_PfnExType_LargePage => 4
  | .VmmDll_PfnExType_DriverLocked => 5
  | .VmmDll_PfnExType_Shareable => 6
  | .VmmDll_PfnExType_File => 7

/-- The enumerators of `VMMDLL_MAP_PFN_TYPEEXTENDED`, in declaration order. -/
def VMMDLL_MAP_PFN_TYPEEXTENDED.all : List VMMDLL_MAP_PFN_TYPEEXTENDED :=
  [ .VmmDll_PfnExType_Unknown, .VmmDll_PfnExType_Unused, .VmmDll_PfnExType_ProcessPrivate,
    .VmmDll_PfnExType_PageTable, .VmmDll_PfnExType_LargePage,
    .VmmDll_PfnExType_DriverLocked, .VmmDll_PfnExType_Shareable, .VmmDll_PfnExType_File ]

/-- The array access `VMMDLL_PFN_TYPE_TEXT[v]`; `none` when out of bounds. -/
def pfnTypeText (v : Nat) : Option String := VMMDLL_PFN_TYPE_TEXT[v]?

/-- The array access `VMMDLL_PFN_TYPEEXTENDED_TEXT[v]`; `none` when out of bounds. -/
def pfnTypeExtendedText (v : Nat) : Option String := VMMDLL_PFN_TYPEEXTENDED_TEXT[v]?

/-! ## Magic values of the versioned records (header lines 450-453, 1401, 1570) -/

def VMMDLL_PLUGIN_CONTEXT_MAGIC : Nat := 0xc0ffee663df9301c
def VMMDLL_PLUGIN_REGINFO_MAGIC : Nat := 0xc0ffee663df9301d
def VMMDLL_PROCESS_INFORMATION_MAGIC : Nat := 0xc0ffee663df9301e
def VMMDLL_REGISTRY_HIVE_INFORMATION_MAGIC : Nat := 0xc0ffee653df8d01e

/-- The kinds of record that start with a `ULONG64 magic` member. -/
inductive RecordKind where
  | PLUGIN_CONTEXT
  | PLUGIN_REGINFO
  | PROCESS_INFORMATION
  | REGISTRY_HIVE_INFORMATION
  deriving DecidableEq, Repr

/-- The magic value of each kind of record. -/
def RecordKind.magic : RecordKind → Nat
  | .PLUGIN_CONTEXT => VMMDLL_PLUGIN_CONTEXT_MAGIC
  | .PLUGIN_REGINFO => VMMDLL_PLUGIN_REGINFO_MAGIC
  | .PROCESS_INFORMATION => VMMDLL_PROCESS_INFORMATION_MAGIC
  | .REGISTRY_HIVE_INFORMATION => VMMDLL_REGISTRY_HIVE_INFORMATION_MAGIC

/-- The record kinds, in header order. -/
def RecordKind.all : List RecordKind :=
  [ .PLUGIN_CONTEXT, .PLUGIN_REGINFO, .PROCESS_INFORMATION, .REGISTRY_HIVE_INFORMATION ]

/-- A magic check: a record is taken for one of kind `expected` when its
`magic` member holds the magic value of that kind. -/
def magicCheck (expected : RecordKind) (magic : Nat) : Bool := magic == expected.magic

/-! ## Bitwise helper lemmas -/

theorem or_and_of_disjoint (w f g : Nat) (h : f &&& g = 0) :
    (w ||| f) &&& g = w &&& g := by
  rw [Nat.and_comm, Nat.and_or_distrib_left, Nat.and_comm g f, h, Nat.or_zero,
    Nat.and_comm]

theorem and_and_of_absorb (w m g : Nat) (h : m &&& g = g) :
    (w &&& m) &&& g = w &&& g := by
  rw [Nat.and_assoc, h]

theorem and_two_pow_of_lt (p k : Nat) (hp : p < 2 ^ k) : p &&& 2 ^ k = 0 := by
  apply Nat.eq_of_testBit_eq
  intro i
  rw [Nat.testBit_and, Nat.testBit_two_pow, Nat.zero_testBit]
  by_cases hi : k = i
  · subst hi
    rw [Nat.testBit_lt_two_pow hp]
    rfl
  · simp [hi]

theorem or_and_self (p f : Nat) : (p ||| f) &&& f = f := by
  apply Nat.eq_of_testBit_eq
  intro i
  rw [Nat.testBit_and, Nat.testBit_or]
  cases p.testBit i <;> cases f.testBit i <;> rfl

theorem or_two_pow_and_mask (p k : Nat) (hp : p < 2 ^ k) :
    (p ||| 2 ^ k) &&& (2 ^ k - 1) = p := by
  apply Nat.eq_of_testBit_eq
  intro i
  rw [Nat.testBit_and, Nat.testBit_or, Nat.testBit_two_pow, Nat.testBit_two_pow_sub_one]
  by_cases hi : i < k
  · have hne : ¬ k = i := by omega
    simp [hi, hne]
  · have hfalse : p.testBit i = false :=
      Nat.testBit_lt_two_pow
        (Nat.lt_of_lt_of_le hp (Nat.pow_le_pow_right (by decide) (by omega)))
    simp [hi, hfalse]

theorem or_two_pow_eq_ones_iff (p k : Nat) (hp : p < 2 ^ (k + 1)) :
    p ||| 2 ^ k = 2 ^ (k + 1) - 1 ↔ p &&& (2 ^ k - 1) = 2 ^ k - 1 := by
  constructor
  · intro h
    apply Nat.eq_of_testBit_eq
    intro i
    rw [Nat.testBit_and, Nat.testBit_two_pow_sub_one]
    by_cases hi : i < k
    · have hbit := congrArg (fun x => x.testBit i) h
      simp only [Nat.testBit_or, Nat.testBit_two_pow, Nat.testBit_two_pow_sub_one] at hbit
      have hne : ¬ k = i := by omega
      have hlt : i < k + 1 := by omega
      simp [hne, hlt] at hbit
      simp [hi, hbit]
    · simp [hi]
  · intro h
    apply Nat.eq_of_testBit_eq
    intro i
    rw [Nat.testBit_or, Nat.testBit_two_pow, Nat.testBit_two_pow_sub_one]
    by_cases hi : i < k
    · have hbit := congrArg (fun x => x.testBit i) h
      simp only [Nat.testBit_and, Nat.testBit_two_pow_sub_one] at hbit
      simp [hi] at hbit
      have hlt : i < k + 1 := by omega
      simp [hbit, hlt]
    · by_cases hk : k = i
      · subst hk
        simp
      · have hfalse : p.testBit i = false :=
          Nat.testBit_lt_two_pow
            (Nat.lt_of_lt_of_le hp (Nat.pow_le_pow_right (by decide) (by omega)))
        have hge : ¬ i < k + 1 := by omega
        simp [hfalse, hk, hge]

/-! ## Lemmas on the scatter engine -/

theorem scatterRead_length (E : Engine) (dwPID flags : Nat) (items : List MEM_SCATTER) :
    (scatterRead E dwPID flags items).2.length = items.length := by
  induction items generalizing E with
  | nil => rfl
  | cons it rest ih =>
    simp only [scatterRead, List.length_cons]
    rw [ih]

theorem bytesTransferred_le (its : List MEM_SCATTER) (oks : List Bool) :
    bytesTransferred its oks ≤ (its.map (fun it => it.cb)).sum := by
  induction its generalizing oks with
  | nil => simp [bytesTransferred]
  | cons it rest ih =>
    cases oks with
    | nil => simp [bytesTransferred]
    | cons ok oks =>
      simp only [bytesTransferred, List.map_cons, List.sum_cons]
      have h := ih oks
      split <;> omega

theorem bytesTransferred_all (its : List MEM_SCATTER) (oks : List Bool)
    (hlen : oks.length = its.length) (hall : ∀ ok ∈ oks, ok = true) :
    bytesTransferred its oks = (its.map (fun it => it.cb)).sum := by
  induction its generalizing oks with
  | nil => simp [bytesTransferred]
  | cons it rest ih =>
    cases oks with
    | nil => simp at hlen
    | cons ok oks =>
      have hok : ok = true := hall ok (List.mem_cons_self _ _)
      have hrest := ih oks (by simpa using hlen)
        (fun o ho => hall o (List.mem_cons_of_mem _ ho))
      simp [bytesTransferred, hok, hrest]

theorem all_of_bytesTransferred (its : List MEM_SCATTER) (oks : List Bool)
    (hlen : oks.length = its.length) (hpos : ∀ it ∈ its, 0 < it.cb)
    (hsum : bytesTransferred its oks = (its.map (fun it => it.cb)).sum) :
    ∀ ok ∈ oks, ok = true := by
  induction its generalizing oks with
  | nil =>
    cases oks with
    | nil => simp
    | cons ok oks => simp at hlen
  | cons it rest ih =>
    cases oks with
    | nil => simp at hlen
    | cons ok oks =>
      have hle := bytesTransferred_le rest oks
      have hit : 0 < it.cb := hpos it (List.mem_cons_self _ _)
      simp only [bytesTransferred, List.map_cons, List.sum_cons] at hsum
      have hok : ok = true := by
        cases ok with
        | true => rfl
        | false => simp at hsum; omega
      subst hok
      simp only [if_true] at hsum
      have hrest := ih oks (by simpa using hlen)
        (fun i hi => hpos i (List.mem_cons_of_mem _ hi)) (by omega)
      intro o ho
      rcases List.mem_cons.mp ho with h | h
      · exact h
      · exact hrest o h

theorem fragmentsAux_sum (fuel qwA cb : Nat) (hfuel : cb ≤ fuel) :
    ((fragmentsAux fuel qwA cb).map (fun it => it.cb)).sum = cb := by
  induction fuel generalizing qwA cb with
  | zero =>
    have : cb = 0 := by omega
    simp [fragmentsAux, this]
  | succ n ih =>
    unfold fragmentsAux
    by_cases hcb : cb = 0
    · simp [hcb]
    · have hmod : qwA % 0x1000 < 0x1000 := Nat.mod_lt _ (by decide)
      simp only [hcb, if_false, List.map_cons, List.sum_cons]
      rw [ih _ _ (by omega)]
      omega

theorem fragmentsAux_bounded (fuel qwA cb : Nat) :
    ∀ it ∈ fragmentsAux fuel qwA cb, 0 < it.cb ∧ it.qwA % 0x1000 + it.cb ≤ 0x1000 := by
  induction fuel generalizing qwA cb with
  | zero => simp [fragmentsAux]
  | succ n ih =>
    unfold fragmentsAux
    by_cases hcb : cb = 0
    · simp [hcb]
    · have hmod : qwA % 0x1000 < 0x1000 := Nat.mod_lt _ (by decide)
      simp only [hcb, if_false]
      intro it hit
      rcases List.mem_cons.mp hit with h | h
      · subst h
        constructor <;> simp only <;> omega
      · exact ih _ _ it h

theorem fragments_sum (qwA cb : Nat) :
    ((fragments qwA cb).map (fun it => it.cb)).sum = cb :=
  fragmentsAux_sum cb qwA cb (Nat.le_refl cb)

theorem scatterReadItem_forcecache (E : Engine) (dwPID flags : Nat) (it : MEM_SCATTER)
    (hforce : hasFlag flags VMMDLL_FLAG_FORCECACHE_READ = true)
    (hcache : hasFlag flags VMMDLL_FLAG_NOCACHE = false) :
    scatterReadItem E dwPID flags it
      = (E, (E.cache dwPID (pageBase it.qwA)).map (fun data => pageSlice data it)) := by
  unfold scatterReadItem
  simp only [hcache, hforce, if_true, Bool.false_eq_true, if_false]
  cases E.cache dwPID (pageBase it.qwA) <;> rfl

theorem scatterRead_forcecache (E : Engine) (dwPID flags : Nat) (items : List MEM_SCATTER)
    (hforce : hasFlag flags VMMDLL_FLAG_FORCECACHE_READ = true)
    (hcache : hasFlag flags VMMDLL_FLAG_NOCACHE = false) :
    scatterRead E dwPID flags items
      = (E, items.map (fun it =>
          (E.cache dwPID (pageBase it.qwA)).map (fun data => pageSlice data it))) := by
  induction items with
  | nil => rfl
  | cons it rest ih =>
    simp only [scatterRead, scatterReadItem_forcecache E dwPID flags it hforce hcache, ih,
      List.map_cons]

/-! ## Lemmas on the map queries -/

theorem Map_Get_null {α : Type} (dwVersion cbHeader cbEntry : Nat)
    (snap : Option (MapSnapshot α)) (cb0 : Nat)
    (hfirst : (VMMDLL_Map_Get dwVersion cbHeader cbEntry snap false cb0).1 = true) :
    ∃ s, snap = some s ∧ mapBlobSize cbHeader cbEntry s < 0x100000000 ∧
      VMMDLL_Map_Get dwVersion cbHeader cbEntry snap false cb0
        = (true, mapBlobSize cbHeader cbEntry s, none) := by
  cases snap with
  | none => simp [VMMDLL_Map_Get] at hfirst
  | some s =>
    by_cases hbig : 0x100000000 ≤ mapBlobSize cbHeader cbEntry s
    · simp [VMMDLL_Map_Get, hbig] at hfirst
    · exact ⟨s, rfl, by omega, by simp [VMMDLL_Map_Get, hbig]⟩

theorem Map_Get_buffer {α : Type} (dwVersion cbHeader cbEntry : Nat) (s : MapSnapshot α)
    (cb : Nat) (hfits : mapBlobSize cbHeader cbEntry s < 0x100000000)
    (hcb : mapBlobSize cbHeader cbEntry s ≤ cb) :
    VMMDLL_Map_Get dwVersion cbHeader cbEntry (some s) true cb
      = (true, mapBlobSize cbHeader cbEntry s,
         some ⟨dwVersion, s.entries.length, s.entries, s.multiText⟩) := by
  have h1 : ¬ 0x100000000 ≤ mapBlobSize cbHeader cbEntry s := by omega
  have h2 : ¬ cb < mapBlobSize cbHeader cbEntry s := by omega
  simp [VMMDLL_Map_Get, h1, h2]

theorem Map_Get_small {α : Type} (dwVersion cbHeader cbEntry : Nat) (s : MapSnapshot α)
    (cb : Nat) (hcb : cb < mapBlobSize cbHeader cbEntry s) :
    (VMMDLL_Map_Get dwVersion cbHeader cbEntry (some s) true cb).1 = false := by
  by_cases hbig : 0x100000000 ≤ mapBlobSize cbHeader cbEntry s
  · simp [VMMDLL_Map_Get, hbig]
  · simp [VMMDLL_Map_Get, hbig, hcb]

theorem Map_Get_two_call {α : Type} (dwVersion cbHeader cbEntry : Nat)
    (snap : Option (MapSnapshot α)) (cb0 : Nat)
    (hfirst : (VMMDLL_Map_Get dwVersion cbHeader cbEntry snap false cb0).1 = true) :
    ∃ s, snap = some s ∧
      VMMDLL_Map_Get dwVersion cbHeader cbEntry snap true
          (VMMDLL_Map_Get dwVersion cbHeader cbEntry snap false cb0).2.1
        = (true, (VMMDLL_Map_Get dwVersion cbHeader cbEntry snap false cb0).2.1,
           some ⟨dwVersion, s.entries.length, s.entries, s.multiText⟩) := by
  obtain ⟨s, hs, hfits, hres⟩ := Map_Get_null dwVersion cbHeader cbEntry snap cb0 hfirst
  refine ⟨s, hs, ?_⟩
  rw [hres]
  subst hs
  exact Map_Get_buffer dwVersion cbHeader cbEntry s _ hfits (Nat.le_refl _)

theorem pteScan_increasing (pages : List (Option Nat)) :
    ∀ (va : Nat) (cur : Option VMMDLL_MAP_PTEENTRY),
      (∀ c, cur = some c → c.vaBase < va) →
      ((pteScan va cur pages).map (fun e => e.vaBase)).Pairwise (fun a b => a < b) ∧
        ∀ e ∈ pteScan va cur pages, (cur.map (fun c => c.vaBase)).getD va ≤ e.vaBase := by
  induction pages with
  | nil =>
    intro va cur _
    cases cur <;> simp [pteScan]
  | cons p rest ih =>
    intro va cur hcur
    cases cur with
    | none =>
      cases p with
      | none =>
        obtain ⟨h1, h2⟩ := ih (va + 0x1000) none (by simp)
        refine ⟨by simpa [pteScan] using h1, fun e he => ?_⟩
        have := h2 e (by simpa [pteScan] using he)
        simp at this ⊢
        omega
      | some f =>
        obtain ⟨h1, h2⟩ := ih (va + 0x1000) (some ⟨va, 1, f⟩) (by simp)
        refine ⟨by simpa [pteScan] using h1, fun e he => ?_⟩
        have := h2 e (by simpa [pteScan] using he)
        simpa using this
    | some c =>
      have hc : c.vaBase < va := hcur c rfl
      cases p with
      | none =>
        obtain ⟨h1, h2⟩ := ih (va + 0x1000) none (by simp)
        simp only [pteScan, List.map_cons, List.pairwise_cons, List.mem_cons, List.mem_map,
          Option.map_some', Option.getD_some]
        refine ⟨⟨?_, h1⟩, ?_⟩
        · rintro b ⟨e, he, rfl⟩
          have := h2 e he
          simp at this
          omega
        · rintro e (rfl | he)
          · exact Nat.le_refl _
          · have := h2 e he
            simp at this
            omega
      | some f =>
        by_cases hf : f = c.fPage
        · obtain ⟨h1, h2⟩ := ih (va + 0x1000) (some ⟨c.vaBase, c.cPages + 1, c.fPage⟩)
            (by intro c' hc'; cases hc'; simp; omega)
          simp only [pteScan, hf, if_true]
          exact ⟨h1, fun e he => by simpa using h2 e he⟩
        · obtain ⟨h1, h2⟩ := ih (va + 0x1000) (some ⟨va, 1, f⟩) (by simp)
          simp only [pteScan, hf, if_false, List.map_cons, List.pairwise_cons, List.mem_cons,
            List.mem_map, Option.map_some', Option.getD_some]
          refine ⟨⟨?_, h1⟩, ?_⟩
          · rintro b ⟨e, he, rfl⟩
            have := h2 e he
            simp at this
            omega
          · rintro e (rfl | he)
            · exact Nat.le_refl _
            · have := h2 e he
              simp at this
              omega

theorem pteMapBuild_increasing (pages : List (Option Nat)) :
    ((pteMapBuild pages).map (fun e => e.vaBase)).Pairwise (fun a b => a < b) :=
  (pteScan_increasing pages 0 none (by simp)).1

theorem or_eq_zero_iff_both (p q : Nat) : p ||| q = 0 ↔ p = 0 ∧ q = 0 := by
  constructor
  · intro h
    have hbit : ∀ i, (p.testBit i || q.testBit i) = false := by
      intro i
      rw [← Nat.testBit_or, h, Nat.zero_testBit]
    constructor
    · apply Nat.eq_of_testBit_eq
      intro i
      rw [Nat.zero_testBit]
      have := hbit i
      cases hp : p.testBit i
      · rfl
      · rw [hp] at this
        simp at this
    · apply Nat.eq_of_testBit_eq
      intro i
      rw [Nat.zero_testBit]
      have := hbit i
      cases hq : q.testBit i
      · rfl
      · rw [hq] at this
        simp at this
  · rintro ⟨rfl, rfl⟩
    rfl

theorem and_or_eq_zero_iff (x a b : Nat) :
    x &&& (a ||| b) = 0 ↔ x &&& a = 0 ∧ x &&& b = 0 := by
  rw [Nat.and_or_distrib_left, or_eq_zero_iff_both]

theorem testBit_false_of_lt_width (v w i : Nat) (hv : v < 2 ^ w) (hi : w ≤ i) :
    v.testBit i = false :=
  Nat.testBit_lt_two_pow (Nat.lt_of_lt_of_le hv (Nat.pow_le_pow_right (by decide) hi))

theorem testBit_packFields_false (l : List (BitField × Nat)) (i : Nat)
    (h : ∀ fv ∈ l, fv.1.pos ≤ i → fv.2.testBit (i - fv.1.pos) = false) :
    (packFields l).testBit i = false := by
  induction l with
  | nil => simp [packFields]
  | cons a rest ih =>
    have hrest := ih (fun fv hfv => h fv (List.mem_cons_of_mem _ hfv))
    have ha := h a (List.mem_cons_self _ _)
    simp only [packFields, Nat.testBit_or, Nat.testBit_shiftLeft, hrest, Bool.or_false]
    by_cases hpos : a.1.pos ≤ i
    · simp [ha hpos]
    · simp [hpos]

theorem packFields_lt (l : List (BitField × Nat)) (n : Nat)
    (hfit : ∀ fv ∈ l, fv.2 < 2 ^ fv.1.width) (hin : ∀ fv ∈ l, fv.1.pos + fv.1.width ≤ n) :
    packFields l < 2 ^ n := by
  apply Nat.lt_pow_two_of_testBit
  intro i hi
  apply testBit_packFields_false
  intro fv hfv hpos
  have := hin fv hfv
  exact testBit_false_of_lt_width _ _ _ (hfit fv hfv) (by omega)

theorem extract_packFields (l : List (BitField × Nat))
    (hfit : ∀ fv ∈ l, fv.2 < 2 ^ fv.1.width)
    (hsorted : l.Pairwise (fun a b => a.1.pos + a.1.width ≤ b.1.pos)) :
    ∀ fv ∈ l, extractField (packFields l) fv.1 = fv.2 := by
  induction l with
  | nil => intro fv hfv; simp at hfv
  | cons a rest ih =>
    rw [List.pairwise_cons] at hsorted
    obtain ⟨hafter, hrest⟩ := hsorted
    have hih := ih (fun fv hfv => hfit fv (List.mem_cons_of_mem _ hfv)) hrest
    intro fv hfv
    apply Nat.eq_of_testBit_eq
    intro j
    simp only [extractField, packFields, Nat.testBit_and, Nat.testBit_shiftRight,
      Nat.testBit_or, Nat.testBit_shiftLeft, Nat.testBit_two_pow_sub_one]
    rcases List.mem_cons.mp hfv with heq | hmem
    · subst heq
      by_cases hj : j < fv.1.width
      · have hP : (packFields rest).testBit (fv.1.pos + j) = false := by
          apply testBit_packFields_false
          intro b hb hpos
          have := hafter b hb
          omega
        have hsub : fv.1.pos + j - fv.1.pos = j := by omega
        simp [hP, hj, hsub]
      · have hv := testBit_false_of_lt_width fv.2 fv.1.width j
          (hfit fv (List.mem_cons_self _ _)) (by omega)
        simp [hj, hv]
    · have hlt := hafter fv hmem
      have ha : a.2.testBit (fv.1.pos + j - a.1.pos) = false :=
        testBit_false_of_lt_width _ _ _ (hfit a (List.mem_cons_self _ _)) (by omega)
      have hbit := congrArg (fun x => x.testBit j) (hih fv hmem)
      simp only [extractField, Nat.testBit_and, Nat.testBit_shiftRight,
        Nat.testBit_two_pow_sub_one] at hbit
      simp [ha, hbit]

theorem extract_pack_assignment (fs : List BitField) (val : BitField → Nat)
    (hfit : ∀ f ∈ fs, val f < 2 ^ f.width)
    (hsorted : fs.Pairwise (fun a b => a.pos + a.width ≤ b.pos)) :
    ∀ f ∈ fs, extractField (packFields (fs.map (fun f => (f, val f)))) f = val f := by
  intro f hf
  have h := extract_packFields (fs.map (fun f => (f, val f)))
    (by
      intro fv hfv
      obtain ⟨g, hg, rfl⟩ := List.mem_map.mp hfv
      exact hfit g hg)
    (by
      rw [List.pairwise_map]
      exact hsorted)
    (f, val f) (List.mem_map.mpr ⟨f, hf, rfl⟩)
  exact h

theorem pack_assignment_lt (fs : List BitField) (val : BitField → Nat) (n : Nat)
    (hfit : ∀ f ∈ fs, val f < 2 ^ f.width) (hin : ∀ f ∈ fs, f.pos + f.width ≤ n) :
    packFields (fs.map (fun f => (f, val f))) < 2 ^ n := by
  apply packFields_lt
  · intro fv hfv
    obtain ⟨g, hg, rfl⟩ := List.mem_map.mp hfv
    exact hfit g hg
  · intro fv hfv
    obtain ⟨g, hg, rfl⟩ := List.mem_map.mp hfv
    exact hin g hg

/-! ## Theorems -/

/-- C1: the eight read flags are each a single bit and pairwise bit-disjoint;
for every flag word `w` and any two distinct flags `f`, `g`, setting `f` in `w`
or clearing `f` from `w` leaves the presence of `g` in `w` unchanged. -/
theorem flags_single_bit_independent (w f g : Nat)
    (hf : f ∈ VMMDLL_FLAGS) (hg : g ∈ VMMDLL_FLAGS) (hne : f ≠ g) :
    IsSingleBit 32 f ∧ f &&& g = 0 ∧
      (w ||| f) &&& g = w &&& g ∧ (w &&& DWORD_not f) &&& g = w &&& g := by
  have hbit : ∀ x ∈ VMMDLL_FLAGS, IsSingleBit 32 x := by decide
  have hpair : ∀ x ∈ VMMDLL_FLAGS, ∀ y ∈ VMMDLL_FLAGS, x ≠ y →
      x &&& y = 0 ∧ DWORD_not x &&& y = y := by decide
  obtain ⟨hdisj, hkeep⟩ := hpair f hf g hg hne
  exact ⟨hbit f hf, hdisj, or_and_of_disjoint w f g hdisj,
    and_and_of_absorb w (DWORD_not f) g hkeep⟩

/-- C1 (witness): the flag word `0x0102`, the flag NOCACHE set or cleared, and
the flag ZEROPAD_ON_FAIL observed. -/
theorem flags_single_bit_independent_witness :
    IsSingleBit 32 VMMDLL_FLAG_NOCACHE ∧
      VMMDLL_FLAG_NOCACHE &&& VMMDLL_FLAG_ZEROPAD_ON_FAIL = 0 ∧
      (0x0102 ||| VMMDLL_FLAG_NOCACHE) &&& VMMDLL_FLAG_ZEROPAD_ON_FAIL
        = 0x0102 &&& VMMDLL_FLAG_ZEROPAD_ON_FAIL ∧
      (0x0102 &&& DWORD_not VMMDLL_FLAG_NOCACHE) &&& VMMDLL_FLAG_ZEROPAD_ON_FAIL
        = 0x0102 &&& VMMDLL_FLAG_ZEROPAD_ON_FAIL :=
  flags_single_bit_independent 0x0102 VMMDLL_FLAG_NOCACHE VMMDLL_FLAG_ZEROPAD_ON_FAIL
    (by decide) (by decide) (by decide)

/-- C2: VMMDLL_PID_PROCESS_WITH_KERNELMEMORY is bit 31 of the 32-bit PID; for
every process id `p < 2 ^ 31`, `p` does not carry the flag, `p | FLAG` carries
it, and clearing the flag from `p | FLAG` (or from `p`) gives back `p`. -/
theorem pid_kernelmemory_flag_roundtrip (p : Nat) (hp : p < 2 ^ 31) :
    VMMDLL_PID_PROCESS_WITH_KERNELMEMORY = 2 ^ 31 ∧
      p &&& VMMDLL_PID_PROCESS_WITH_KERNELMEMORY = 0 ∧
      (p ||| VMMDLL_PID_PROCESS_WITH_KERNELMEMORY) &&& VMMDLL_PID_PROCESS_WITH_KERNELMEMORY
        = VMMDLL_PID_PROCESS_WITH_KERNELMEMORY ∧
      (p ||| VMMDLL_PID_PROCESS_WITH_KERNELMEMORY)
        &&& DWORD_not VMMDLL_PID_PROCESS_WITH_KERNELMEMORY = p ∧
      p &&& DWORD_not VMMDLL_PID_PROCESS_WITH_KERNELMEMORY = p := by
  have hflag : VMMDLL_PID_PROCESS_WITH_KERNELMEMORY = 2 ^ 31 := by decide
  have hnot : DWORD_not VMMDLL_PID_PROCESS_WITH_KERNELMEMORY = 2 ^ 31 - 1 := by decide
  refine ⟨hflag, ?_, or_and_self p _, ?_, ?_⟩
  · rw [hflag]
    exact and_two_pow_of_lt p 31 hp
  · rw [hnot, hflag]
    exact or_two_pow_and_mask p 31 hp
  · rw [hnot, Nat.and_pow_two_sub_one_eq_mod]
    exact Nat.mod_eq_of_lt hp

/-- C2 (witness): the process id 4. -/
theorem pid_kernelmemory_flag_roundtrip_witness :
    VMMDLL_PID_PROCESS_WITH_KERNELMEMORY = 2 ^ 31 ∧
      4 &&& VMMDLL_PID_PROCESS_WITH_KERNELMEMORY = 0 ∧
      (4 ||| VMMDLL_PID_PROCESS_WITH_KERNELMEMORY) &&& VMMDLL_PID_PROCESS_WITH_KERNELMEMORY
        = VMMDLL_PID_PROCESS_WITH_KERNELMEMORY ∧
      (4 ||| VMMDLL_PID_PROCESS_WITH_KERNELMEMORY)
        &&& DWORD_not VMMDLL_PID_PROCESS_WITH_KERNELMEMORY = 4 ∧
      4 &&& DWORD_not VMMDLL_PID_PROCESS_WITH_KERNELMEMORY = 4 :=
  pid_kernelmemory_flag_roundtrip 4 (by decide)

/-- C3: the physical address space is selected by `(DWORD)-1 = 0xFFFFFFFF`; for
every 32-bit process id `p`, `p | VMMDLL_PID_PROCESS_WITH_KERNELMEMORY` equals
`(DWORD)-1` exactly when the low 31 bits of `p` are all ones, and a process id
below `0x7FFFFFFF` is not `(DWORD)-1`, with or without the flag. -/
theorem pid_physical_reserved (p : Nat) (hp : p < 2 ^ 32) :
    VMMDLL_PID_PHYSICAL = 0xFFFFFFFF ∧
      (p ||| VMMDLL_PID_PROCESS_WITH_KERNELMEMORY = VMMDLL_PID_PHYSICAL
        ↔ p &&& 0x7FFFFFFF = 0x7FFFFFFF) ∧
      (p < 0x7FFFFFFF →
        p ≠ VMMDLL_PID_PHYSICAL ∧
          p ||| VMMDLL_PID_PROCESS_WITH_KERNELMEMORY ≠ VMMDLL_PID_PHYSICAL) := by
  have hphys : VMMDLL_PID_PHYSICAL = 2 ^ (31 + 1) - 1 := by decide
  have hflag : VMMDLL_PID_PROCESS_WITH_KERNELMEMORY = 2 ^ 31 := by decide
  have hmask : (0x7FFFFFFF : Nat) = 2 ^ 31 - 1 := by decide
  have hiff := or_two_pow_eq_ones_iff p 31 hp
  refine ⟨by decide, ?_, ?_⟩
  · rw [hphys, hflag, hmask]
    exact hiff
  · intro hlt
    refine ⟨?_, ?_⟩
    · rw [hphys]
      omega
    · rw [hphys, hflag]
      intro hall
      have hlow := hiff.mp hall
      rw [Nat.and_pow_two_sub_one_eq_mod] at hlow
      omega

/-- C3 (witness): the process id `0x7FFFFFFE`, the largest one below
`0x7FFFFFFF`. -/
theorem pid_physical_reserved_witness :
    VMMDLL_PID_PHYSICAL = 0xFFFFFFFF ∧
      (0x7FFFFFFE ||| VMMDLL_PID_PROCESS_WITH_KERNELMEMORY = VMMDLL_PID_PHYSICAL
        ↔ 0x7FFFFFFE &&& 0x7FFFFFFF = 0x7FFFFFFF) ∧
      (0x7FFFFFFE < 0x7FFFFFFF →
        0x7FFFFFFE ≠ VMMDLL_PID_PHYSICAL ∧
          0x7FFFFFFE ||| VMMDLL_PID_PROCESS_WITH_KERNELMEMORY ≠ VMMDLL_PID_PHYSICAL) :=
  pid_physical_reserved 0x7FFFFFFE (by decide)

/-- C4: the result codes are five pairwise distinct 32-bit values; SUCCESS is
zero and is the only code that is zero, each of the four failure codes has both
top bits set, and a code is a success if and only if it is zero. -/
theorem status_codes_closed_set :
    VMMDLL_STATUS_CODES.length = 5 ∧ VMMDLL_STATUS_CODES.Nodup ∧
      (∀ c ∈ VMMDLL_STATUS_CODES, c < 2 ^ 32) ∧
      VMMDLL_STATUS_SUCCESS = 0 ∧
      VMMDLL_STATUS_CODES = VMMDLL_STATUS_SUCCESS :: VMMDLL_STATUS_FAILURES ∧
      (∀ c ∈ VMMDLL_STATUS_FAILURES, c ≠ 0 ∧ c &&& 0xC0000000 = 0xC0000000) ∧
      (∀ c ∈ VMMDLL_STATUS_CODES, c = VMMDLL_STATUS_SUCCESS ↔ c = 0) := by
  decide

/-- C5: the readable option keys (documented R or RW) are pairwise distinct, no
key documented R is a key documented RW, and no R or RW key is a key
documented W; a key value therefore names at most one readable setting and is
documented under at most one access class. -/
theorem opt_keys_partitioned (k : Nat) :
    optKeysReadable.Nodup ∧
      (∀ a ∈ optKeys OptAccess.R, ∀ b ∈ optKeys OptAccess.RW, a ≠ b) ∧
      (∀ a ∈ optKeysReadable, ∀ b ∈ optKeys OptAccess.W, a ≠ b) ∧
      optKeysReadable.count k ≤ 1 ∧
      (optAccessOf k).length ≤ 1 ∧
      (k ∈ VMMDLL_OPT_TABLE.map (fun e => e.1) → (optAccessOf k).length = 1) := by
  have hnodup : optKeysReadable.Nodup := by decide
  have hcls : ∀ e ∈ VMMDLL_OPT_TABLE, optAccessOf e.1 = [e.2] := by decide
  refine ⟨hnodup, by decide, by decide, List.nodup_iff_count_le_one.mp hnodup k, ?_, ?_⟩
  · by_cases hk : k ∈ VMMDLL_OPT_TABLE.map (fun e => e.1)
    · obtain ⟨e, he, rfl⟩ := List.mem_map.mp hk
      rw [hcls e he]
      exact Nat.le_refl 1
    · have hempty : VMMDLL_OPT_TABLE.filter (fun e => decide (e.1 = k)) = [] := by
        rw [List.filter_eq_nil_iff]
        intro e he hek
        exact hk (List.mem_map.mpr ⟨e, he, of_decide_eq_true hek⟩)
      simp [optAccessOf, hempty]
  · intro hk
    obtain ⟨e, he, rfl⟩ := List.mem_map.mp hk
    rw [hcls e he]
    rfl

/-- C6: every individual refresh trigger (the five FREQ keys and the ten
deprecated keys, which with REFRESH_ALL are all the keys documented W) has all
its bits set in VMMDLL_OPT_REFRESH_ALL. -/
theorem refresh_all_covers_triggers :
    optKeys OptAccess.W
        = VMMDLL_OPT_REFRESH_ALL ::
            (VMMDLL_OPT_REFRESH_FREQ_KEYS ++ VMMDLL_OPT_REFRESH_DEPRECATED_KEYS) ∧
      VMMDLL_OPT_REFRESH_FREQ_KEYS.length = 5 ∧
      VMMDLL_OPT_REFRESH_DEPRECATED_KEYS.length = 10 ∧
      ∀ k ∈ VMMDLL_OPT_REFRESH_FREQ_KEYS ++ VMMDLL_OPT_REFRESH_DEPRECATED_KEYS,
        k &&& VMMDLL_OPT_REFRESH_ALL = k := by
  decide

/-- C7: the ten deprecated refresh triggers are pairwise distinct, each has
exactly one bit set in its 16-bit trigger field (bits 32..47), and the bitwise
OR of any subset of them determines the subset. -/
theorem deprecated_triggers_addressable :
    VMMDLL_OPT_REFRESH_DEPRECATED_KEYS.length = 10 ∧
      VMMDLL_OPT_REFRESH_DEPRECATED_KEYS.Nodup ∧
      (∀ k ∈ VMMDLL_OPT_REFRESH_DEPRECATED_KEYS, IsSingleBit 16 (optTriggerField k)) ∧
      (∀ s ∈ VMMDLL_OPT_REFRESH_DEPRECATED_KEYS.sublists,
        deprecatedTriggersIn (orAll s) = s) := by
  refine ⟨by decide, by decide, ?_, ?_⟩
  · decide!
  · decide!

/-- C8: the memory-model tag has exactly the four values unknown = 0, x86 = 1,
x86-with-PAE = 2 and x64 = 3, and for every tag `m` the lookup
`VMMDLL_MEMORYMODEL_TOSTRING[m]` is inside the 4-entry table and yields "N/A",
"X86", "X86PAE" and "X64" respectively. -/
theorem memorymodel_tostring_in_bounds (m : VMMDLL_MEMORYMODEL_TP) :
    VMMDLL_MEMORYMODEL_TP.all.map VMMDLL_MEMORYMODEL_TP.val = [0, 1, 2, 3] ∧
      m ∈ VMMDLL_MEMORYMODEL_TP.all ∧
      VMMDLL_MEMORYMODEL_TOSTRING.size = 4 ∧
      m.val < VMMDLL_MEMORYMODEL_TOSTRING.size ∧
      memoryModelToString m =
        (match m with
          | .VMMDLL_MEMORYMODEL_NA => some "N/A"
          | .VMMDLL_MEMORYMODEL_X86 => some "X86"
          | .VMMDLL_MEMORYMODEL_X86PAE => some "X86PAE"
          | .VMMDLL_MEMORYMODEL_X64 => some "X64") := by
  cases m <;> exact ⟨rfl, by decide, rfl, by decide, rfl⟩

/-- C9: the seven enumerators of VMMDLL_PTE_TP have the pairwise distinct values
0..6 with NA = 0; a tag is zero exactly when it is NA, so a zero-initialised
tag reads as NA and as no other state. -/
theorem pte_tp_values_distinct (t u : VMMDLL_PTE_TP) :
    VMMDLL_PTE_TP.all.map VMMDLL_PTE_TP.val = [0, 1, 2, 3, 4, 5, 6] ∧
      t ∈ VMMDLL_PTE_TP.all ∧
      (t.val = u.val ↔ t = u) ∧
      VMMDLL_PTE_TP.VMMDLL_PTE_TP_NA.val = 0 ∧
      (t.val = 0 ↔ t = VMMDLL_PTE_TP.VMMDLL_PTE_TP_NA) ∧
      VMMDLL_PTE_TP.ofVal 0 = some VMMDLL_PTE_TP.VMMDLL_PTE_TP_NA ∧
      VMMDLL_PTE_TP.ofVal t.val = some t := by
  cases t <;> cases u <;> decide

/-- C10: the six event codes delivered to a plugin's notify callback are
pairwise distinct, so a comparison of `fEvent` by equality with the code of an
event holds for that event and no other. -/
theorem notify_codes_distinct (e f : NotifyEvent) :
    (NotifyEvent.all.map NotifyEvent.code).Nodup ∧
      e ∈ NotifyEvent.all ∧
      (e.code = f.code ↔ e = f) ∧
      eventsMatching e.code = [e] := by
  cases e <;> cases f <;> decide

/-- C11: each of the fifteen map header structures has the version tag
`DWORD dwVersion` as its first member, at offset 0, has an entry count
`DWORD cMap`, and has the flexible entry array `pMap[]` of its entry structure
as its last member, declared after `cMap` and placed after the end of `cMap`. -/
theorem map_headers_self_describing :
    VMMDLL_MAP_HEADERS.length = 15 ∧ (VMMDLL_MAP_HEADERS.map (fun h => h.name)).Nodup ∧
      ∀ h ∈ VMMDLL_MAP_HEADERS,
        h.members.head? = some ⟨.DWORD, "dwVersion", .scalar⟩ ∧
        h.member? "cMap" = some ⟨.DWORD, "cMap", .scalar⟩ ∧
        h.members.getLast?.map (fun m => (m.name, m.shape)) = some ("pMap", .flexible) ∧
        h.entryName = some (h.name ++ "ENTRY") ∧
        h.indexOf "cMap" < h.indexOf "pMap" ∧
        h.indexOf "pMap" + 1 = h.members.length ∧
        ∀ abi ∈ ABIS,
          h.offsetOf abi "dwVersion" = some 0 ∧
          (h.offsetOf abi "cMap").isSome ∧ (h.offsetOf abi "pMap").isSome ∧
          ∀ oc ∈ h.offsetOf abi "cMap", ∀ op ∈ h.offsetOf abi "pMap", oc + 4 ≤ op := by
  decide

/-- C12 (counterexample): the text reference `uszText` of VMMDLL_MAP_PTEENTRY
is declared `LPSTR`, a pointer and not a byte offset, so it is not the case
that every text reference of a map entry is a byte offset. -/
theorem map_entry_text_by_offset_counterexample :
    (⟨"VMMDLL_MAP_PTEENTRY", ⟨.LPSTR, "uszText", .scalar⟩, ⟨.LPWSTR, "wszText", .scalar⟩, none⟩
        : TextUnion) ∈ VMMDLL_MAP_TEXT_UNIONS ∧
      CType.LPSTR.refKind = some RefKind.pointer ∧
      ¬ (∀ u ∈ VMMDLL_MAP_TEXT_UNIONS,
          u.usz.ty.refKind = some RefKind.byteOffset ∧
            u.wsz.ty.refKind = some RefKind.byteOffset) := by
  decide

/-- C12 (amended): in every map blob that carries text, each entry refers to its
text by a pointer, `LPSTR usz..` or `LPWSTR wsz..`, and the header holds the
text region as the pointer `PBYTE pbMultiText` with its size `cbMultiText`;
the entry structures with text references are those of the headers with a
text region; only VMMDLL_VFS_FILELISTBLOB_ENTRY.ouszName is an integer byte
offset. -/
theorem map_entry_text_by_pointer :
    (∀ u ∈ VMMDLL_MAP_TEXT_UNIONS,
        u.usz.ty = CType.LPSTR ∧ u.wsz.ty = CType.LPWSTR ∧
          u.usz.ty.refKind = some RefKind.pointer ∧
          u.wsz.ty.refKind = some RefKind.pointer ∧
          ∀ p ∈ u.pad, p.ty = CType.QWORD) ∧
      (VMMDLL_MAP_TEXT_UNIONS.map (fun u => u.owner)).dedup
        = VMMDLL_MAP_HEADERS_WITH_TEXT.filterMap (fun h => h.entryName) ∧
      (∀ h ∈ VMMDLL_MAP_HEADERS_WITH_TEXT,
        h.member? "pbMultiText" = some ⟨.PBYTE, "pbMultiText", .scalar⟩ ∧
          h.member? "cbMultiText" = some ⟨.DWORD, "cbMultiText", .scalar⟩) ∧
      VMMDLL_VFS_FILELISTBLOB_ENTRY_ouszName.ty = CType.ULONG64 ∧
      VMMDLL_VFS_FILELISTBLOB_ENTRY_ouszName.ty.refKind = some RefKind.byteOffset := by
  decide

/-- C13: for every scatter request of `cpMEMs` items, in any address space and
with any flags, the value returned by VMMDLL_MemReadScatter is at most
`cpMEMs`; it is the number of items whose outcome is a success. -/
theorem mem_read_scatter_count_le (E : Engine) (dwPID flags : Nat)
    (ppMEMs : List MEM_SCATTER) :
    VMMDLL_MemReadScatter E dwPID ppMEMs flags ≤ ppMEMs.length ∧
      (scatterRead E dwPID flags ppMEMs).2.length = ppMEMs.length ∧
      VMMDLL_MemReadScatter E dwPID ppMEMs flags
        = ((scatterRead E dwPID flags ppMEMs).2.filter (fun r => r.isSome)).length := by
  refine ⟨?_, scatterRead_length E dwPID flags ppMEMs, rfl⟩
  unfold VMMDLL_MemReadScatter
  rw [← scatterRead_length E dwPID flags ppMEMs]
  exact List.length_filter_le _ _

/-- C14 (counterexample): a read of 8 bytes of physical memory at `0x2000`,
where the backend fails, is reported as a success by VMMDLL_MemReadEx with 0
bytes read; so success of VMMDLL_MemReadEx does not mean that all requested
bytes were read. -/
theorem mem_read_ex_success_counterexample :
    VMMDLL_MemReadEx engineTwoPages VMMDLL_PID_PHYSICAL 0x2000 8 0 = (true, 0) ∧
      ¬ (∀ (E : Engine) (dwPID qwA cb flags : Nat),
          (VMMDLL_MemReadEx E dwPID qwA cb flags).1 = true →
            (VMMDLL_MemReadEx E dwPID qwA cb flags).2 = cb) := by
  have heval : VMMDLL_MemReadEx engineTwoPages VMMDLL_PID_PHYSICAL 0x2000 8 0 = (true, 0) := by
    decide
  refine ⟨heval, fun hall => ?_⟩
  have h := hall engineTwoPages VMMDLL_PID_PHYSICAL 0x2000 8 0 (by rw [heval])
  rw [heval] at h
  exact absurd h (by decide)

/-- C14 (amended): VMMDLL_MemRead reports success only if every page-bounded
fragment succeeded and all `cb` bytes were read; VMMDLL_MemReadEx reports in
`*pcbReadOpt` the number of bytes transferred, which is at most `cb` and
equals `cb` exactly when every fragment succeeded, while its own return value
may be success with fewer bytes read. -/
theorem mem_read_success_all_bytes (E : Engine) (dwPID qwA cb flags : Nat) :
    (VMMDLL_MemRead E dwPID qwA cb = true →
        (VMMDLL_MemReadEx E dwPID qwA cb 0).2 = cb ∧
          ∀ r ∈ (scatterRead E dwPID 0 (fragments qwA cb)).2, r.isSome = true) ∧
      (VMMDLL_MemReadEx E dwPID qwA cb flags).2 ≤ cb ∧
      ((VMMDLL_MemReadEx E dwPID qwA cb flags).1 = true →
        ((VMMDLL_MemReadEx E dwPID qwA cb flags).2 = cb ↔
          ∀ r ∈ (scatterRead E dwPID flags (fragments qwA cb)).2, r.isSome = true)) := by
  have hlen : ∀ fl, ((scatterRead E dwPID fl (fragments qwA cb)).2.map
      (fun r => r.isSome)).length = (fragments qwA cb).length := by
    intro fl
    rw [List.length_map, scatterRead_length]
  have hpos : ∀ it ∈ fragments qwA cb, 0 < it.cb :=
    fun it hit => (fragmentsAux_bounded cb qwA cb it hit).1
  have hiff : ∀ fl, (VMMDLL_MemReadEx E dwPID qwA cb fl).1 = true →
      ((VMMDLL_MemReadEx E dwPID qwA cb fl).2 = cb ↔
        ∀ r ∈ (scatterRead E dwPID fl (fragments qwA cb)).2, r.isSome = true) := by
    intro fl hok
    unfold VMMDLL_MemReadEx at hok ⊢
    by_cases hsp : E.addressSpaceExists dwPID = true
    · simp only [hsp, if_true]
      constructor
      · intro hcb r hr
        have hsum : bytesTransferred (fragments qwA cb)
            ((scatterRead E dwPID fl (fragments qwA cb)).2.map (fun r => r.isSome))
              = ((fragments qwA cb).map (fun it => it.cb)).sum := by
          rw [fragments_sum]
          exact hcb
        exact all_of_bytesTransferred _ _ (hlen fl) hpos hsum r.isSome
          (List.mem_map.mpr ⟨r, hr, rfl⟩)
      · intro hall
        rw [bytesTransferred_all _ _ (hlen fl), fragments_sum]
        intro ok hok'
        obtain ⟨r, hr, rfl⟩ := List.mem_map.mp hok'
        exact hall r hr
    · simp [hsp] at hok
  refine ⟨?_, ?_, hiff flags⟩
  · intro hread
    unfold VMMDLL_MemRead at hread
    rw [Bool.and_eq_true, beq_iff_eq] at hread
    exact ⟨hread.2, (hiff 0 hread.1).mp hread.2⟩
  · unfold VMMDLL_MemReadEx
    split
    · have h := bytesTransferred_le (fragments qwA cb)
        ((scatterRead E dwPID flags (fragments qwA cb)).2.map (fun r => r.isSome))
      rw [fragments_sum] at h
      exact h
    · exact Nat.zero_le cb

/-- C14 (witness): a read of `0x1004` bytes at `0xffc` in process 4, whose three
fragments lie in the two pages the backend delivers. -/
theorem mem_read_success_all_bytes_witness :
    VMMDLL_MemRead engineTwoPages 4 0xffc 0x1004 = true ∧
      (VMMDLL_MemReadEx engineTwoPages 4 0xffc 0x1004 0).2 = 0x1004 ∧
      ∀ r ∈ (scatterRead engineTwoPages 4 0 (fragments 0xffc 0x1004)).2, r.isSome = true :=
  ⟨by decide, (mem_read_success_all_bytes engineTwoPages 4 0xffc 0x1004 0).1 (by decide)⟩

/-- C15: VMMDLL_MemWrite has no partial-success return: it returns TRUE only if
the full requested length was committed, every fragment being committed, and
it returns FALSE on every partial write and on every zero-byte write. -/
theorem mem_write_full_or_false (E : Engine) (dwPID qwA cb : Nat) :
    (VMMDLL_MemWrite E dwPID qwA cb = true →
        memWriteCommitted E dwPID qwA cb = cb ∧
          ∀ it ∈ fragments qwA cb, scatterWriteItem E dwPID it = true) ∧
      (memWriteCommitted E dwPID qwA cb < cb → VMMDLL_MemWrite E dwPID qwA cb = false) ∧
      (memWriteCommitted E dwPID qwA cb = 0 → VMMDLL_MemWrite E dwPID qwA cb = false) ∧
      memWriteCommitted E dwPID qwA cb ≤ cb := by
  have hle : memWriteCommitted E dwPID qwA cb ≤ cb := by
    have h := bytesTransferred_le (fragments qwA cb)
      ((fragments qwA cb).map (scatterWriteItem E dwPID))
    rw [fragments_sum] at h
    exact h
  refine ⟨?_, ?_, ?_, hle⟩
  · intro hw
    unfold VMMDLL_MemWrite at hw
    have hfull : memWriteCommitted E dwPID qwA cb = cb := by
      by_cases h0 : memWriteCommitted E dwPID qwA cb = 0
      · simp [h0] at hw
      · by_cases hlt : memWriteCommitted E dwPID qwA cb < cb
        · simp [h0, hlt] at hw
        · omega
    refine ⟨hfull, fun it hit => ?_⟩
    have hsum : bytesTransferred (fragments qwA cb)
        ((fragments qwA cb).map (scatterWriteItem E dwPID))
          = ((fragments qwA cb).map (fun it => it.cb)).sum := by
      rw [fragments_sum]
      exact hfull
    exact all_of_bytesTransferred _ _ (List.length_map _ _)
      (fun i hi => (fragmentsAux_bounded cb qwA cb i hi).1) hsum _
      (List.mem_map.mpr ⟨it, hit, rfl⟩)
  · intro hlt
    unfold VMMDLL_MemWrite
    simp [hlt]
  · intro h0
    unfold VMMDLL_MemWrite
    simp [h0]

/-- C15 (witness): a write of `0x1004` bytes at `0xffc` in process 4, whose
fragments the backend commits. -/
theorem mem_write_full_or_false_witness :
    VMMDLL_MemWrite engineTwoPages 4 0xffc 0x1004 = true ∧
      memWriteCommitted engineTwoPages 4 0xffc 0x1004 = 0x1004 ∧
      ∀ it ∈ fragments 0xffc 0x1004, scatterWriteItem engineTwoPages 4 it = true :=
  ⟨by decide, (mem_write_full_or_false engineTwoPages 4 0xffc 0x1004).1 (by decide)⟩

/-- C16: a VFS read at an offset beyond the size range of the file returns
VMMDLL_STATUS_END_OF_FILE with `*pcbRead = 0`, and not
VMMDLL_STATUS_UNSUCCESSFUL, both in VMMDLL_UtilVfsReadFile_FromPBYTE and in
VMMDLL_VfsReadU on a path that names a file. -/
theorem vfs_read_beyond_end_is_eof (vfs : List (String × List Nat)) (uszFileName : String)
    (pbFile : List Nat) (cbFile cb cbOffset : Nat) (hbeyond : cbFile ≤ cbOffset) :
    VMMDLL_UtilVfsReadFile_FromPBYTE pbFile cbFile cb cbOffset
        = (VMMDLL_STATUS_END_OF_FILE, 0, []) ∧
      (VMMDLL_UtilVfsReadFile_FromPBYTE pbFile cbFile cb cbOffset).1
        ≠ VMMDLL_STATUS_UNSUCCESSFUL ∧
      (vfs.lookup uszFileName = some pbFile → pbFile.length = cbFile →
        VMMDLL_VfsReadU vfs uszFileName cb cbOffset = (VMMDLL_STATUS_END_OF_FILE, 0, []) ∧
          (VMMDLL_VfsReadU vfs uszFileName cb cbOffset).1 ≠ VMMDLL_STATUS_UNSUCCESSFUL) := by
  have heof : VMMDLL_UtilVfsReadFile_FromPBYTE pbFile cbFile cb cbOffset
      = (VMMDLL_STATUS_END_OF_FILE, 0, []) := by
    simp [VMMDLL_UtilVfsReadFile_FromPBYTE, hbeyond]
  have hne : VMMDLL_STATUS_END_OF_FILE ≠ VMMDLL_STATUS_UNSUCCESSFUL := by decide
  refine ⟨heof, by rw [heof]; exact hne, ?_⟩
  intro hfile hsize
  have hvfs : VMMDLL_VfsReadU vfs uszFileName cb cbOffset
      = (VMMDLL_STATUS_END_OF_FILE, 0, []) := by
    simp only [VMMDLL_VfsReadU, hfile, hsize]
    exact heof
  exact ⟨hvfs, by rw [hvfs]; exact hne⟩

/-- C16 (witness): a read of 16 bytes at offset 9 of the 4-byte file `/a`. -/
theorem vfs_read_beyond_end_is_eof_witness :
    VMMDLL_UtilVfsReadFile_FromPBYTE [1, 2, 3, 4] 4 16 9
        = (VMMDLL_STATUS_END_OF_FILE, 0, []) ∧
      (VMMDLL_UtilVfsReadFile_FromPBYTE [1, 2, 3, 4] 4 16 9).1
        ≠ VMMDLL_STATUS_UNSUCCESSFUL ∧
      ([("/a", [1, 2, 3, 4])].lookup "/a" = some [1, 2, 3, 4] → [1, 2, 3, 4].length = 4 →
        VMMDLL_VfsReadU [("/a", [1, 2, 3, 4])] "/a" 16 9
            = (VMMDLL_STATUS_END_OF_FILE, 0, []) ∧
          (VMMDLL_VfsReadU [("/a", [1, 2, 3, 4])] "/a" 16 9).1 ≠ VMMDLL_STATUS_UNSUCCESSFUL) :=
  vfs_read_beyond_end_is_eof [("/a", [1, 2, 3, 4])] "/a" [1, 2, 3, 4] 4 16 9 (by decide)

/-- C17: for every map query, when the call with a NULL buffer succeeds and
returns the required byte count, the call on the unchanged snapshot with a
buffer of exactly that size succeeds, reports the same size and delivers the
blob; so does a call with any larger buffer that a DWORD can count, and the
same holds for VMMDLL_Map_GetPteU and VMMDLL_Map_GetVadU. -/
theorem map_query_two_call_idempotent {α : Type} (dwVersion cbHeader cbEntry : Nat)
    (snap : Option (MapSnapshot α)) (cb0 : Nat)
    (hfirst : (VMMDLL_Map_Get dwVersion cbHeader cbEntry snap false cb0).1 = true) :
    (VMMDLL_Map_Get dwVersion cbHeader cbEntry snap true
        (VMMDLL_Map_Get dwVersion cbHeader cbEntry snap false cb0).2.1).1 = true ∧
      (VMMDLL_Map_Get dwVersion cbHeader cbEntry snap true
        (VMMDLL_Map_Get dwVersion cbHeader cbEntry snap false cb0).2.1).2.1
          = (VMMDLL_Map_Get dwVersion cbHeader cbEntry snap false cb0).2.1 ∧
      (VMMDLL_Map_Get dwVersion cbHeader cbEntry snap true
        (VMMDLL_Map_Get dwVersion cbHeader cbEntry snap false cb0).2.1).2.2.isSome = true ∧
      (∀ cb, (VMMDLL_Map_Get dwVersion cbHeader cbEntry snap false cb0).2.1 ≤ cb →
        (VMMDLL_Map_Get dwVersion cbHeader cbEntry snap true cb).1 = true) ∧
      (∀ (hdr ent : Nat) (proc : Option (List (Option Nat) × List Nat)) (c : Nat),
        (VMMDLL_Map_GetPteU hdr ent proc false c).1 = true →
          (VMMDLL_Map_GetPteU hdr ent proc true
            (VMMDLL_Map_GetPteU hdr ent proc false c).2.1).1 = true) ∧
      (∀ (hdr ent : Nat) (proc : Option (List VMMDLL_MAP_VADENTRY × List Nat)) (c : Nat),
        (VMMDLL_Map_GetVadU hdr ent proc false c).1 = true →
          (VMMDLL_Map_GetVadU hdr ent proc true
            (VMMDLL_Map_GetVadU hdr ent proc false c).2.1).1 = true) := by
  obtain ⟨s, hs, hsecond⟩ := Map_Get_two_call dwVersion cbHeader cbEntry snap cb0 hfirst
  obtain ⟨s', hs', hfits, hnull⟩ := Map_Get_null dwVersion cbHeader cbEntry snap cb0 hfirst
  refine ⟨by rw [hsecond], by rw [hsecond], by rw [hsecond]; rfl, ?_, ?_, ?_⟩
  · intro cb hcb
    rw [hnull] at hcb
    subst hs'
    rw [Map_Get_buffer dwVersion cbHeader cbEntry s' cb hfits hcb]
  · intro hdr ent proc c h
    obtain ⟨t, _, ht⟩ := Map_Get_two_call VMMDLL_MAP_PTE_VERSION hdr ent _ c h
    unfold VMMDLL_Map_GetPteU
    rw [ht]
  · intro hdr ent proc c h
    obtain ⟨t, _, ht⟩ := Map_Get_two_call VMMDLL_MAP_VAD_VERSION hdr ent _ c h
    unfold VMMDLL_Map_GetVadU
    rw [ht]

/-- C17 (witness): a snapshot of three entries and two bytes of text, a header
of 40 bytes and entries of 48 bytes. -/
theorem map_query_two_call_idempotent_witness :
    (VMMDLL_Map_Get 2 40 48 (some (⟨[1, 2, 3], [0, 0]⟩ : MapSnapshot Nat)) false 0).1 = true ∧
      (VMMDLL_Map_Get 2 40 48 (some (⟨[1, 2, 3], [0, 0]⟩ : MapSnapshot Nat)) false 0).2.1 = 186 ∧
      (VMMDLL_Map_Get 2 40 48 (some (⟨[1, 2, 3], [0, 0]⟩ : MapSnapshot Nat)) true
        (VMMDLL_Map_Get 2 40 48 (some (⟨[1, 2, 3], [0, 0]⟩ : MapSnapshot Nat))
          false 0).2.1).1 = true :=
  ⟨by decide, by decide,
    (map_query_two_call_idempotent 2 40 48 (some (⟨[1, 2, 3], [0, 0]⟩ : MapSnapshot Nat)) 0
      (by decide)).1⟩

/-- C18: for every process, when the call of VMMDLL_Map_GetPteU with a NULL
buffer returns the required byte count, the call with a buffer of that size
delivers a map of `cMap` entries whose `vaBase` values are strictly
increasing. -/
theorem pte_map_vaBase_strictly_increasing (cbHeader cbEntry : Nat)
    (pages : List (Option Nat)) (text : List Nat) (cb0 : Nat)
    (hfirst : (VMMDLL_Map_GetPteU cbHeader cbEntry (some (pages, text)) false cb0).1 = true) :
    ∃ blob,
      VMMDLL_Map_GetPteU cbHeader cbEntry (some (pages, text)) true
          (VMMDLL_Map_GetPteU cbHeader cbEntry (some (pages, text)) false cb0).2.1
        = (true, (VMMDLL_Map_GetPteU cbHeader cbEntry (some (pages, text)) false cb0).2.1,
           some blob) ∧
      blob.dwVersion = VMMDLL_MAP_PTE_VERSION ∧
      blob.cMap = blob.pMap.length ∧
      (blob.pMap.map (fun e => e.vaBase)).Pairwise (fun a b => a < b) := by
  obtain ⟨s, hs, hsecond⟩ :=
    Map_Get_two_call VMMDLL_MAP_PTE_VERSION cbHeader cbEntry _ cb0 hfirst
  simp only [Option.map_some', Option.some.injEq] at hs
  subst hs
  exact ⟨_, hsecond, rfl, rfl, pteMapBuild_increasing pages⟩

/-- C18 (witness): a page table of seven pages with three regions. -/
theorem pte_map_vaBase_strictly_increasing_witness :
    ∃ blob,
      VMMDLL_Map_GetPteU 40 48
          (some ([some 6, some 6, none, some 6, some 2, some 2, none], [])) true
          (VMMDLL_Map_GetPteU 40 48
            (some ([some 6, some 6, none, some 6, some 2, some 2, none], [])) false 0).2.1
        = (true, (VMMDLL_Map_GetPteU 40 48
            (some ([some 6, some 6, none, some 6, some 2, some 2, none], [])) false 0).2.1,
           some blob) ∧
      blob.dwVersion = VMMDLL_MAP_PTE_VERSION ∧
      blob.cMap = blob.pMap.length ∧
      (blob.pMap.map (fun e => e.vaBase)).Pairwise (fun a b => a < b) :=
  pte_map_vaBase_strictly_increasing 40 48
    [some 6, some 6, none, some 6, some 2, some 2, none] [] 0 (by decide)

/-- C20: a flag word that has VMMDLL_FLAG_FORCECACHE_READ together with
VMMDLL_FLAG_NOCACHE or with VMMDLL_FLAG_ZEROPAD_ON_FAIL is an invalid flag set,
and in a read with a valid flag set that has VMMDLL_FLAG_FORCECACHE_READ an
item whose page is not in the cache fails. -/
theorem forcecache_read_miss_fails (E : Engine) (dwPID flags : Nat)
    (ppMEMs : List MEM_SCATTER) (i : Nat) (it : MEM_SCATTER)
    (hvalid : readFlagsValid flags = true)
    (hforce : hasFlag flags VMMDLL_FLAG_FORCECACHE_READ = true)
    (hitem : ppMEMs[i]? = some it)
    (hmiss : E.cache dwPID (pageBase it.qwA) = none) :
    (∀ w, hasFlag w VMMDLL_FLAG_FORCECACHE_READ = true →
        (hasFlag w VMMDLL_FLAG_NOCACHE = true ∨ hasFlag w VMMDLL_FLAG_ZEROPAD_ON_FAIL = true) →
        readFlagsValid w = false) ∧
      scatterReadItem E dwPID flags it = (E, none) ∧
      (scatterRead E dwPID flags ppMEMs).2[i]? = some none ∧
      VMMDLL_MemReadScatter E dwPID ppMEMs flags < ppMEMs.length := by
  have hcache : hasFlag flags VMMDLL_FLAG_NOCACHE = false := by
    unfold readFlagsValid at hvalid
    rw [hforce] at hvalid
    cases h : hasFlag flags VMMDLL_FLAG_NOCACHE
    · rfl
    · rw [h] at hvalid
      simp at hvalid
  have hone : scatterReadItem E dwPID flags it = (E, none) := by
    rw [scatterReadItem_forcecache E dwPID flags it hforce hcache, hmiss]
    rfl
  have hall := scatterRead_forcecache E dwPID flags ppMEMs hforce hcache
  have hidx : (scatterRead E dwPID flags ppMEMs).2[i]? = some none := by
    rw [hall]
    simp only [List.getElem?_map, hitem, Option.map_some', hmiss]
    rfl
  refine ⟨?_, hone, hidx, ?_⟩
  · intro w hw hor
    unfold readFlagsValid
    rcases hor with h | h <;> simp [hw, h]
  · unfold VMMDLL_MemReadScatter
    rw [← scatterRead_length E dwPID flags ppMEMs]
    have hmem : (none : Option (List Nat)) ∈ (scatterRead E dwPID flags ppMEMs).2 :=
      (List.mem_iff_getElem?.mpr ⟨i, hidx⟩)
    exact List.length_filter_lt_length_iff_exists.mpr ⟨none, hmem, by simp⟩

/-- C20 (witness): a forced-cache read of one item of process 4 with an empty
cache. -/
theorem forcecache_read_miss_fails_witness :
    (∀ w, hasFlag w VMMDLL_FLAG_FORCECACHE_READ = true →
        (hasFlag w VMMDLL_FLAG_NOCACHE = true ∨ hasFlag w VMMDLL_FLAG_ZEROPAD_ON_FAIL = true) →
        readFlagsValid w = false) ∧
      scatterReadItem engineTwoPages 4 VMMDLL_FLAG_FORCECACHE_READ ⟨0x1000, 8⟩
        = (engineTwoPages, none) ∧
      (scatterRead engineTwoPages 4 VMMDLL_FLAG_FORCECACHE_READ [⟨0x1000, 8⟩]).2[0]?
        = some none ∧
      VMMDLL_MemReadScatter engineTwoPages 4 [⟨0x1000, 8⟩] VMMDLL_FLAG_FORCECACHE_READ
        < [(⟨0x1000, 8⟩ : MEM_SCATTER)].length :=
  forcecache_read_miss_fails engineTwoPages 4 VMMDLL_FLAG_FORCECACHE_READ [⟨0x1000, 8⟩] 0
    ⟨0x1000, 8⟩ (by decide) (by decide) (by decide) (by decide)

/-- C21: a VMMDLL_OPT_* key of the header is documented write-only exactly when
its top 16 bits (bits 48..63) are 0x2001, and every key documented read-only
or read-write has top 16 bits 0x2000 or 0x4000. -/
theorem opt_write_only_tag :
    ∀ e ∈ VMMDLL_OPT_TABLE,
      e.1 < 2 ^ 64 ∧
      (e.2 = OptAccess.W ↔ optTag e.1 = 0x2001) ∧
      (e.2 ≠ OptAccess.W → optTag e.1 = 0x2000 ∨ optTag e.1 = 0x4000) := by
  decide

/-- C21 (witness): the key VMMDLL_OPT_REFRESH_ALL, documented W. -/
theorem opt_write_only_tag_witness :
    (VMMDLL_OPT_REFRESH_ALL, OptAccess.W) ∈ VMMDLL_OPT_TABLE ∧
      VMMDLL_OPT_REFRESH_ALL < 2 ^ 64 ∧
      (OptAccess.W = OptAccess.W ↔ optTag VMMDLL_OPT_REFRESH_ALL = 0x2001) ∧
      (OptAccess.W ≠ OptAccess.W →
        optTag VMMDLL_OPT_REFRESH_ALL = 0x2000 ∨ optTag VMMDLL_OPT_REFRESH_ALL = 0x4000) :=
  ⟨by decide, opt_write_only_tag (VMMDLL_OPT_REFRESH_ALL, OptAccess.W) (by decide)⟩

/-- C24: in VMMDLL_MAP_PFNENTRY the 16 bits of ReferenceCount and the two
bit-field bytes (3+1+1+1+2 and 3+1+1+1+1+1 bits) total the 32 bits of `_u3`;
the 32 bits of PteFrame and the fields PteFrameHigh (4), _Reserved (21),
PrototypePte (1) and PageColor (6) total the 64 bits of `_u4`, and the
documented positions 32, 36, 57 and 58 are each the sum of the preceding
widths. -/
theorem pfnentry_fields_fill_words :
    VMMDLL_MAP_PFNENTRY_U3_BYTE0.map (fun f => f.width) = [3, 1, 1, 1, 2] ∧
      VMMDLL_MAP_PFNENTRY_U3_BYTE1.map (fun f => f.width) = [3, 1, 1, 1, 1, 1] ∧
      totalWidth VMMDLL_MAP_PFNENTRY_U3_BYTE0 = IntType.BYTE.bits ∧
      totalWidth VMMDLL_MAP_PFNENTRY_U3_BYTE1 = IntType.BYTE.bits ∧
      VMMDLL_MAP_PFNENTRY_ReferenceCount.bits + totalWidth VMMDLL_MAP_PFNENTRY_U3_BYTE0
          + totalWidth VMMDLL_MAP_PFNENTRY_U3_BYTE1 = IntType.DWORD.bits ∧
      VMMDLL_MAP_PFNENTRY_U3_BYTE0.map (fun f => f.pos)
        = allocatedPositions 0 VMMDLL_MAP_PFNENTRY_U3_BYTE0 ∧
      VMMDLL_MAP_PFNENTRY_U3_BYTE1.map (fun f => f.pos)
        = allocatedPositions 0 VMMDLL_MAP_PFNENTRY_U3_BYTE1 ∧
      VMMDLL_MAP_PFNENTRY_U4_FIELDS.map (fun f => f.width) = [4, 21, 1, 6] ∧
      VMMDLL_MAP_PFNENTRY_PteFrame.bits + totalWidth VMMDLL_MAP_PFNENTRY_U4_FIELDS
        = IntType.QWORD.bits ∧
      VMMDLL_MAP_PFNENTRY_U4_FIELDS.map (fun f => f.pos) = [32, 36, 57, 58] ∧
      VMMDLL_MAP_PFNENTRY_U4_FIELDS.map (fun f => f.pos)
        = allocatedPositions VMMDLL_MAP_PFNENTRY_PteFrame.bits VMMDLL_MAP_PFNENTRY_U4_FIELDS := by
  decide

/-- C26: each deprecated refresh key with a frequency-based successor is the
same value as the successor, PROCESS = FREQ_MEDIUM, READ = FREQ_MEM,
TLB = FREQ_TLB and REGISTRY = FREQ_SLOW; these four are the only deprecated
keys equal to a frequency key, and FREQ_FAST equals no deprecated key. -/
theorem deprecated_keys_equal_successors :
    VMMDLL_OPT_REFRESH_PROCESS = VMMDLL_OPT_REFRESH_FREQ_MEDIUM ∧
      VMMDLL_OPT_REFRESH_READ = VMMDLL_OPT_REFRESH_FREQ_MEM ∧
      VMMDLL_OPT_REFRESH_TLB = VMMDLL_OPT_REFRESH_FREQ_TLB ∧
      VMMDLL_OPT_REFRESH_REGISTRY = VMMDLL_OPT_REFRESH_FREQ_SLOW ∧
      VMMDLL_OPT_REFRESH_DEPRECATED_KEYS.filter
          (fun k => decide (k ∈ VMMDLL_OPT_REFRESH_FREQ_KEYS))
        = [VMMDLL_OPT_REFRESH_PROCESS, VMMDLL_OPT_REFRESH_READ, VMMDLL_OPT_REFRESH_TLB,
            VMMDLL_OPT_REFRESH_REGISTRY] ∧
      VMMDLL_OPT_REFRESH_FREQ_FAST ∉ VMMDLL_OPT_REFRESH_DEPRECATED_KEYS ∧
      ∀ k ∈ VMMDLL_OPT_REFRESH_DEPRECATED_KEYS, k ≠ VMMDLL_OPT_REFRESH_FREQ_FAST := by
  decide

/-- C27: the notify codes are not bit flags: REFRESH_FAST (0x05) is
VERBOSITYCHANGE | REFRESH_SLOW, so the bitwise tests of a REFRESH_FAST event
against VERBOSITYCHANGE and against REFRESH_SLOW are non-zero, while
REFRESH_MEDIUM (0x02) shares no bit with the other three codes. -/
theorem notify_codes_not_bit_flags :
    VMMDLL_PLUGIN_NOTIFY_REFRESH_FAST = 0x05 ∧
      VMMDLL_PLUGIN_NOTIFY_REFRESH_FAST
        = VMMDLL_PLUGIN_NOTIFY_VERBOSITYCHANGE ||| VMMDLL_PLUGIN_NOTIFY_REFRESH_SLOW ∧
      VMMDLL_PLUGIN_NOTIFY_REFRESH_FAST &&& VMMDLL_PLUGIN_NOTIFY_VERBOSITYCHANGE ≠ 0 ∧
      VMMDLL_PLUGIN_NOTIFY_REFRESH_FAST &&& VMMDLL_PLUGIN_NOTIFY_REFRESH_SLOW ≠ 0 ∧
      VMMDLL_PLUGIN_NOTIFY_REFRESH_MEDIUM = 0x02 ∧
      VMMDLL_PLUGIN_NOTIFY_REFRESH_MEDIUM &&& VMMDLL_PLUGIN_NOTIFY_VERBOSITYCHANGE = 0 ∧
      VMMDLL_PLUGIN_NOTIFY_REFRESH_MEDIUM &&& VMMDLL_PLUGIN_NOTIFY_REFRESH_FAST = 0 ∧
      VMMDLL_PLUGIN_NOTIFY_REFRESH_MEDIUM &&& VMMDLL_PLUGIN_NOTIFY_REFRESH_SLOW = 0 := by
  decide

/-- C28: the four magic values are pairwise distinct 64-bit values, so a magic
check for one kind of record accepts the magic of a record exactly when the
record is of that kind. -/
theorem record_magics_distinct (k r : RecordKind) :
    (RecordKind.all.map RecordKind.magic).Nodup ∧
      r ∈ RecordKind.all ∧
      r.magic < 2 ^ 64 ∧
      (k.magic = r.magic ↔ k = r) ∧
      (magicCheck k r.magic = true ↔ r = k) := by
  cases k <;> cases r <;> decide

/-- C22: VMMDLL_MEMMAP_FLAG_PAGE_MASK is the bitwise OR of PAGE_W (bit 1),
PAGE_NS (bit 2) and PAGE_NX (bit 63), which are pairwise bit-disjoint; for
every fPage value, `fPage & MASK` is zero exactly when none of the three flags
is set in fPage, and `fPage & MASK` has no bit other than bits 1, 2 and 63. -/
theorem page_mask_is_or_of_flags (fPage : Nat) :
    VMMDLL_MEMMAP_FLAG_PAGE_W = 2 ^ 1 ∧ VMMDLL_MEMMAP_FLAG_PAGE_NS = 2 ^ 2 ∧
      VMMDLL_MEMMAP_FLAG_PAGE_NX = 2 ^ 63 ∧
      VMMDLL_MEMMAP_FLAG_PAGE_MASK
        = VMMDLL_MEMMAP_FLAG_PAGE_W ||| VMMDLL_MEMMAP_FLAG_PAGE_NS
            ||| VMMDLL_MEMMAP_FLAG_PAGE_NX ∧
      VMMDLL_MEMMAP_FLAG_PAGE_W &&& VMMDLL_MEMMAP_FLAG_PAGE_NS = 0 ∧
      VMMDLL_MEMMAP_FLAG_PAGE_W &&& VMMDLL_MEMMAP_FLAG_PAGE_NX = 0 ∧
      VMMDLL_MEMMAP_FLAG_PAGE_NS &&& VMMDLL_MEMMAP_FLAG_PAGE_NX = 0 ∧
      (fPage &&& VMMDLL_MEMMAP_FLAG_PAGE_MASK = 0 ↔
        fPage &&& VMMDLL_MEMMAP_FLAG_PAGE_W = 0 ∧ fPage &&& VMMDLL_MEMMAP_FLAG_PAGE_NS = 0 ∧
          fPage &&& VMMDLL_MEMMAP_FLAG_PAGE_NX = 0) ∧
      (∀ i, (fPage &&& VMMDLL_MEMMAP_FLAG_PAGE_MASK).testBit i = true →
        i = 1 ∨ i = 2 ∨ i = 63) ∧
      (fPage &&& VMMDLL_MEMMAP_FLAG_PAGE_MASK) &&& VMMDLL_MEMMAP_FLAG_PAGE_MASK
        = fPage &&& VMMDLL_MEMMAP_FLAG_PAGE_MASK := by
  have hmask : VMMDLL_MEMMAP_FLAG_PAGE_MASK
      = VMMDLL_MEMMAP_FLAG_PAGE_W ||| VMMDLL_MEMMAP_FLAG_PAGE_NS
          ||| VMMDLL_MEMMAP_FLAG_PAGE_NX := by decide
  have hpow : VMMDLL_MEMMAP_FLAG_PAGE_MASK = 2 ^ 1 ||| 2 ^ 2 ||| 2 ^ 63 := by decide
  refine ⟨by decide, by decide, by decide, hmask, by decide, by decide, by decide, ?_, ?_, ?_⟩
  · rw [hmask, and_or_eq_zero_iff, and_or_eq_zero_iff, and_assoc]
  · intro i hi
    rw [hpow, Nat.testBit_and, Nat.testBit_or, Nat.testBit_or, Nat.testBit_two_pow,
      Nat.testBit_two_pow, Nat.testBit_two_pow] at hi
    by_cases h1 : 1 = i
    · exact Or.inl h1.symm
    · by_cases h2 : 2 = i
      · exact Or.inr (Or.inl h2.symm)
      · by_cases h3 : 63 = i
        · exact Or.inr (Or.inr h3.symm)
        · simp [h1, h2, h3] at hi
  · rw [Nat.and_assoc, Nat.and_self]

/-- C23: the twelve bit-fields of DWORD 0 of VMMDLL_MAP_VADENTRY have the widths
3,5,1,1,1,1,1,1,2,7,1,8 and the documented positions
0,3,8,9,10,11,12,13,14,16,23,24, each the sum of the preceding widths; every
bit 0..31 lies in exactly one field and no field reaches past bit 31; likewise
CommitCharge (31 bits at 0) and MemCommit (1 bit at 31) for DWORD 1; and for
every assignment of values below `2 ^ width`, the fields packed at these
positions fit a DWORD and shift-and-mask extraction returns each value. -/
theorem vad_bitfields_roundtrip (val : BitField → Nat)
    (h0 : ∀ f ∈ VMMDLL_MAP_VADENTRY_DWORD0, val f < 2 ^ f.width)
    (h1 : ∀ f ∈ VMMDLL_MAP_VADENTRY_DWORD1, val f < 2 ^ f.width) :
    VMMDLL_MAP_VADENTRY_DWORD0.map (fun f => f.width) = [3, 5, 1, 1, 1, 1, 1, 1, 2, 7, 1, 8] ∧
      VMMDLL_MAP_VADENTRY_DWORD0.map (fun f => f.pos)
        = [0, 3, 8, 9, 10, 11, 12, 13, 14, 16, 23, 24] ∧
      VMMDLL_MAP_VADENTRY_DWORD0.map (fun f => f.pos)
        = allocatedPositions 0 VMMDLL_MAP_VADENTRY_DWORD0 ∧
      totalWidth VMMDLL_MAP_VADENTRY_DWORD0 = IntType.DWORD.bits ∧
      (∀ b, b < 32 → (fieldsCovering VMMDLL_MAP_VADENTRY_DWORD0 b).length = 1) ∧
      (∀ f ∈ VMMDLL_MAP_VADENTRY_DWORD0, f.pos + f.width ≤ 32) ∧
      VMMDLL_MAP_VADENTRY_DWORD1.map (fun f => (f.width, f.pos)) = [(31, 0), (1, 31)] ∧
      VMMDLL_MAP_VADENTRY_DWORD1.map (fun f => f.pos)
        = allocatedPositions 0 VMMDLL_MAP_VADENTRY_DWORD1 ∧
      totalWidth VMMDLL_MAP_VADENTRY_DWORD1 = IntType.DWORD.bits ∧
      (∀ b, b < 32 → (fieldsCovering VMMDLL_MAP_VADENTRY_DWORD1 b).length = 1) ∧
      (∀ f ∈ VMMDLL_MAP_VADENTRY_DWORD0,
        extractField (packFields (VMMDLL_MAP_VADENTRY_DWORD0.map (fun f => (f, val f)))) f
          = val f) ∧
      (∀ f ∈ VMMDLL_MAP_VADENTRY_DWORD1,
        extractField (packFields (VMMDLL_MAP_VADENTRY_DWORD1.map (fun f => (f, val f)))) f
          = val f) ∧
      packFields (VMMDLL_MAP_VADENTRY_DWORD0.map (fun f => (f, val f))) < 2 ^ 32 ∧
      packFields (VMMDLL_MAP_VADENTRY_DWORD1.map (fun f => (f, val f))) < 2 ^ 32 := by
  have hin0 : ∀ f ∈ VMMDLL_MAP_VADENTRY_DWORD0, f.pos + f.width ≤ 32 := by decide
  have hin1 : ∀ f ∈ VMMDLL_MAP_VADENTRY_DWORD1, f.pos + f.width ≤ 32 := by decide
  have hs0 : VMMDLL_MAP_VADENTRY_DWORD0.Pairwise (fun a b => a.pos + a.width ≤ b.pos) := by
    decide
  have hs1 : VMMDLL_MAP_VADENTRY_DWORD1.Pairwise (fun a b => a.pos + a.width ≤ b.pos) := by
    decide
  exact ⟨by decide, by decide, by decide, by decide, by decide, hin0, by decide, by decide,
    by decide, by decide,
    extract_pack_assignment _ val h0 hs0, extract_pack_assignment _ val h1 hs1,
    pack_assignment_lt _ val 32 h0 hin0, pack_assignment_lt _ val 32 h1 hin1⟩

/-- C23 (witness): every field set to its largest value; the packed DWORD 0 is
`0xFFFFFFFF` and the field Protection reads back as 31. -/
theorem vad_bitfields_roundtrip_witness :
    packFields (VMMDLL_MAP_VADENTRY_DWORD0.map (fun f => (f, 2 ^ f.width - 1))) = 0xFFFFFFFF ∧
      extractField
          (packFields (VMMDLL_MAP_VADENTRY_DWORD0.map (fun f => (f, 2 ^ f.width - 1))))
          ⟨.DWORD, "Protection", 5, 3⟩
        = 2 ^ 5 - 1 :=
  ⟨by decide,
    (vad_bitfields_roundtrip (fun f => 2 ^ f.width - 1) (by decide) (by decide)).2.2.2.2.2.2.2.2.2.2.1
      ⟨.DWORD, "Protection", 5, 3⟩ (by decide)⟩

/-- C25 (counterexample): entry 4 of VMMDLL_PFN_TYPE_TEXT is "ModNoWr", not the
name ModifiedNoWrite of the enumerator with value 4, so it is not the case
that every entry is the name of its enumerator. -/
theorem pfn_type_text_name_counterexample :
    VMMDLL_MAP_PFN_TYPE.VmmDll_PfnTypeModifiedNoWrite.val = 4 ∧
      pfnTypeText 4 = some "ModNoWr" ∧
      VMMDLL_MAP_PFN_TYPE.VmmDll_PfnTypeModifiedNoWrite.name = "ModifiedNoWrite" ∧
      ¬ (∀ t : VMMDLL_MAP_PFN_TYPE, pfnTypeText t.val = some t.name) := by
  refine ⟨rfl, by decide, by decide, fun hall => ?_⟩
  exact absurd (hall VMMDLL_MAP_PFN_TYPE.VmmDll_PfnTypeModifiedNoWrite) (by decide)

/-- C25 (amended): for every value of the 3-bit PageLocation field the lookup in
the 8-entry table VMMDLL_PFN_TYPE_TEXT is in bounds; the enumerators of
VMMDLL_MAP_PFN_TYPE have the values 0..7 and the names Zero, Free, Standby,
Modified, ModifiedNoWrite, Bad, Active, Transition in that order; the entry is
the enumerator's name for Zero, Free, Standby, Bad and Active and the
abbreviation ModNoWr and Transit for ModifiedNoWrite and Transition; and
VMMDLL_PFN_TYPEEXTENDED_TEXT has one entry for each of the eight values 0..7
of VMMDLL_MAP_PFN_TYPEEXTENDED. -/
theorem pfn_type_text_in_bounds (t : VMMDLL_MAP_PFN_TYPE) (u : VMMDLL_MAP_PFN_TYPEEXTENDED) :
    VMMDLL_PFN_TYPE_TEXT.size = 8 ∧
      (∀ f ∈ VMMDLL_MAP_PFNENTRY_U3_BYTE0, f.name = "PageLocation" →
        f.width = 3 ∧ ∀ v, v < 2 ^ f.width → (pfnTypeText v).isSome = true) ∧
      VMMDLL_MAP_PFN_TYPE.all.map VMMDLL_MAP_PFN_TYPE.val = [0, 1, 2, 3, 4, 5, 6, 7] ∧
      VMMDLL_MAP_PFN_TYPE.all.map VMMDLL_MAP_PFN_TYPE.name
        = ["Zero", "Free", "Standby", "Modified", "ModifiedNoWrite", "Bad", "Active",
            "Transition"] ∧
      t ∈ VMMDLL_MAP_PFN_TYPE.all ∧
      t.val < VMMDLL_PFN_TYPE_TEXT.size ∧
      (pfnTypeText t.val).isSome = true ∧
      (t ∈ [VMMDLL_MAP_PFN_TYPE.VmmDll_PfnTypeZero, VMMDLL_MAP_PFN_TYPE.VmmDll_PfnTypeFree,
            VMMDLL_MAP_PFN_TYPE.VmmDll_PfnTypeStandby, VMMDLL_MAP_PFN_TYPE.VmmDll_PfnTypeBad,
            VMMDLL_MAP_PFN_TYPE.VmmDll_PfnTypeActive] →
        pfnTypeText t.val = some t.name) ∧
      pfnTypeText VMMDLL_MAP_PFN_TYPE.VmmDll_PfnTypeModifiedNoWrite.val = some "ModNoWr" ∧
      pfnTypeText VMMDLL_MAP_PFN_TYPE.VmmDll_PfnTypeTransition.val = some "Transit" ∧
      (t ≠ VMMDLL_MAP_PFN_TYPE.VmmDll_PfnTypeModified →
        ∀ label ∈ pfnTypeText t.val, List.Sublist label.data t.name.data) ∧
      VMMDLL_PFN_TYPEEXTENDED_TEXT.size = 8 ∧
      VMMDLL_MAP_PFN_TYPEEXTENDED.all.map VMMDLL_MAP_PFN_TYPEEXTENDED.val
        = [0, 1, 2, 3, 4, 5, 6, 7] ∧
      u ∈ VMMDLL_MAP_PFN_TYPEEXTENDED.all ∧
      u.val < VMMDLL_PFN_TYPEEXTENDED_TEXT.size ∧
      (pfnTypeExtendedText u.val).isSome = true := by
  cases t <;> cases u <;> decide

/-- C25 (witness): the enumerator Active, of value 6, whose entry is its name. -/
theorem pfn_type_text_in_bounds_witness :
    VMMDLL_MAP_PFN_TYPE.VmmDll_PfnTypeActive.val = 6 ∧
      pfnTypeText VMMDLL_MAP_PFN_TYPE.VmmDll_PfnTypeActive.val
        = some VMMDLL_MAP_PFN_TYPE.VmmDll_PfnTypeActive.name ∧
      VMMDLL_MAP_PFN_TYPE.VmmDll_PfnTypeActive.name = "Active" :=
  ⟨rfl,
    (pfn_type_text_in_bounds VMMDLL_MAP_PFN_TYPE.VmmDll_PfnTypeActive
      VMMDLL_MAP_PFN_TYPEEXTENDED.VmmDll_PfnExType_Unknown).2.2.2.2.2.2.2.1 (by decide),
    by decide⟩

end Vmmdll
